import Mathlib

/-!
Shallow embedding of the alert classification and unification engine of the
aind_dashboard repository (src/app_utils/app_alerts/alert_service.py and
src/app_utils/app_alerts/alert_coordinator.py), together with theorems that
settle the frozen specification claims about it.

Python dicts are modelled as association lists with insert-or-replace update
(dict_insert), floats as rationals with missing/NaN values as Option, and
raising code as Except String results.
-/

/-- Association-list model of a Python dict: assigning to a key replaces the
stored value of the (unique) binding of that key in place when the key is
present, otherwise appends the new binding at the end (preserving Python's
insertion order). -/
def dict_insert {α : Type} : List (String × α) → String → α → List (String × α)
  | [], k, v => [(k, v)]
  | p :: rest, k, v =>
    if p.1 == k then (k, v) :: rest else p :: dict_insert rest k v

/-- Lookup in the association-list dict model (Python `d.get(k)` / `d[k]`). -/
def dict_get {α : Type} : List (String × α) → String → Option α
  | [], _ => none
  | p :: rest, k => if p.1 == k then some p.2 else dict_get rest k

/-- Membership test on keys (Python `k in d`). -/
def dict_mem {α : Type} : List (String × α) → String → Bool
  | [], _ => false
  | p :: rest, k => p.1 == k || dict_mem rest k

/-- Key list of the dict model (Python `d.keys()`, in insertion order). -/
def dict_keys {α : Type} (m : List (String × α)) : List String :=
  m.map (fun p => p.1)

/-- Substring test used to model pandas `Series.str.contains` with a literal
pattern: the pattern occurs in the string iff splitting on it produces more
than one piece. -/
def str_contains_sub (s pat : String) : Bool :=
  (s.splitOn pat).length != 1

/-- The five percentile category boundaries (the `percentile_categories`
config dict, keys SB, B, N, G, SG). -/
structure PercentileCategories where
  SB : ℚ
  B : ℚ
  N : ℚ
  G : ℚ
  SG : ℚ
deriving DecidableEq

/-- Source constant `AlertService.DEFAULT_PERCENTILE_CATEGORIES`. -/
def DEFAULT_PERCENTILE_CATEGORIES : PercentileCategories :=
  { SB := 6.5, B := 28, N := 72, G := 93.5, SG := 100 }

/-- Source constant `AlertService.DEFAULT_MIN_SESSIONS`. -/
def DEFAULT_MIN_SESSIONS : Nat := 1

/-- Values stored in the `AlertService.config` dict. The dict is heterogeneous
in Python; the three kinds of values it ever holds are enumerated here. -/
inductive ConfigVal where
  | cats (c : PercentileCategories)
  | feats (m : List (String × Bool))
  | num (n : Nat)
deriving DecidableEq

/-- The `AlertService.config` dict: string keys to config values. -/
abbrev ServiceConfig : Type := List (String × ConfigVal)

/-- Partial override of the percentile category boundaries, as supplied inside
an external config dict (each key optional; `dict.update` merge semantics). -/
structure PartialCategories where
  SB : Option ℚ := none
  B : Option ℚ := none
  N : Option ℚ := none
  G : Option ℚ := none
  SG : Option ℚ := none
deriving DecidableEq

/-- External config dict passed to the AlertService constructor. It may carry
a `min_sessions` entry, which `_update_config` never reads. -/
structure ExternalConfig where
  percentile_categories : Option PartialCategories := none
  feature_config : Option (List (String × Bool)) := none
  min_sessions : Option Nat := none
deriving DecidableEq

/-- Merge of `self.config["percentile_categories"].update(overrides)`:
every key present in the override replaces the stored boundary. -/
def merge_categories (c : PercentileCategories) (pc : PartialCategories) :
    PercentileCategories :=
  { SB := pc.SB.getD c.SB
    B := pc.B.getD c.B
    N := pc.N.getD c.N
    G := pc.G.getD c.G
    SG := pc.SG.getD c.SG }

/-- Source `AlertService._update_config`: merges only the
`percentile_categories` and `feature_config` entries of the supplied config
into `self.config`; any other entry of the supplied config (in particular
`min_sessions`) is ignored. -/
def update_config (cfg : ServiceConfig) (ext : ExternalConfig) : ServiceConfig :=
  let cfg1 :=
    match ext.percentile_categories with
    | none => cfg
    | some pc =>
      match dict_get cfg "percentile_categories" with
      | some (ConfigVal.cats c) =>
        dict_insert cfg "percentile_categories" (ConfigVal.cats (merge_categories c pc))
      | _ => cfg
  match ext.feature_config with
  | none => cfg1
  | some fc =>
    match dict_get cfg1 "feature_config" with
    | some (ConfigVal.feats m) =>
      dict_insert cfg1 "feature_config"
        (ConfigVal.feats (fc.foldl (fun a p => dict_insert a p.1 p.2) m))
    | _ => cfg1

/-- The `AlertService.__init__` construction of `self.config`: defaults for
the three keys, then `_update_config` when a config argument is given. -/
def service_config (ext : Option ExternalConfig) : ServiceConfig :=
  let base : ServiceConfig :=
    [("percentile_categories", ConfigVal.cats DEFAULT_PERCENTILE_CATEGORIES),
     ("feature_config", ConfigVal.feats []),
     ("min_sessions", ConfigVal.num DEFAULT_MIN_SESSIONS)]
  match ext with
  | none => base
  | some e => update_config base e

/-- Read `self.config["percentile_categories"]`. The key is always present on
configs built by the constructor; the fallback covers the other cases. -/
def percentile_categories_of (cfg : ServiceConfig) : PercentileCategories :=
  match dict_get cfg "percentile_categories" with
  | some (ConfigVal.cats c) => c
  | _ => DEFAULT_PERCENTILE_CATEGORIES

/-- The lookup `self.config.get("min_sessions_for_scoring",
self.DEFAULT_MIN_SESSIONS)` in `_check_session_count_requirements`. The
constructor only ever creates the keys `percentile_categories`,
`feature_config` and `min_sessions`, and `_update_config` adds no key, so on
every config the service builds this lookup misses and the default is used. -/
def min_sessions_for_scoring (cfg : ServiceConfig) : Nat :=
  match dict_get cfg "min_sessions_for_scoring" with
  | some (ConfigVal.num n) => n
  | _ => DEFAULT_MIN_SESSIONS

/-- Source `AlertService.map_percentile_to_category`: `none` models a Python
`None` or NaN percentile, which maps to the sentinel `"Unknown"`; a finite
percentile goes through the first-match chain over the configured
boundaries. -/
def map_percentile_to_category (cats : PercentileCategories) (p : Option ℚ) :
    String :=
  match p with
  | none => "Unknown"
  | some v =>
    if v < cats.SB then "SB"
    else if v < cats.B then "B"
    else if v < cats.N then "N"
    else if v < cats.G then "G"
    else "SG"

/-- Source `AlertService.map_overall_percentile_to_category`: same chain as
`map_percentile_to_category` but with `"NS"` as the missing-value sentinel. -/
def map_overall_percentile_to_category (cats : PercentileCategories)
    (p : Option ℚ) : String :=
  match p with
  | none => "NS"
  | some v =>
    if v < cats.SB then "SB"
    else if v < cats.B then "B"
    else if v < cats.N then "N"
    else if v < cats.G then "G"
    else "SG"

/-- Source `AlertService.get_category_description`. -/
def get_category_description (category : String) : String :=
  (dict_get
    [("SB", "Significantly Below Average"),
     ("B", "Below Average"),
     ("N", "Average"),
     ("G", "Above Average"),
     ("SG", "Significantly Above Average")] category).getD "Unknown"

/-- Rank of a percentile category, for stating monotonicity: SB < B < N < G
< SG; any other string (the sentinels) ranks above all scored categories. -/
def category_rank : String → Nat
  | "SB" => 0
  | "B" => 1
  | "N" => 2
  | "G" => 3
  | "SG" => 4
  | _ => 5

/-- One session row of the session-data table consumed by the alert service
(`app_utils.get_session_data()` result). Optional fields model nullable (NaN)
cells; `session` and `water_day_total` carry the `row.get(col, 0)` default
applied at the use sites. Session dates are modelled as naturals ordered like
the source's sortable dates. -/
structure SessionRow where
  subject_id : String
  session_date : Nat
  session : ℚ := 0
  water_day_total : ℚ := 0
  current_stage_actual : String := ""
  finished_trials : Option ℚ := none
  total_trials : Option ℚ := none
  ignore_rate : Option ℚ := none
deriving DecidableEq

/-- One row of the `get_session_overall_percentiles` collaborator result:
nullable overall percentile, optional strata column, and the
`<feature>_session_percentile` columns keyed by feature name (an absent key
models an absent column, `some none` a present-but-NaN cell). -/
structure PercRow where
  subject_id : String
  session_overall_percentile : Option ℚ
  strata : Option String := none
  feature_session_percentiles : List (String × Option ℚ) := []
deriving DecidableEq

/-- One row of the comprehensive feature-percentile dataframe produced by
`quantile_analyzer.create_comprehensive_dataframe`: percentile and processed
columns are keyed by feature name (the column set of the frame is carried by
`ComprehensiveData.percentile_features`). -/
structure FeatureRow where
  subject_id : String
  is_current : Bool
  strata : Option String := none
  percentile_cols : List (String × Option ℚ) := []
  processed_cols : List (String × Option ℚ) := []
deriving DecidableEq

/-- The comprehensive dataframe: the feature names whose
`<feature>_percentile` column exists, plus the rows. -/
structure ComprehensiveData where
  percentile_features : List String := []
  rows : List FeatureRow := []
deriving DecidableEq

/-- The quantile analyzer collaborator, as consumed by the alert service: its
`create_comprehensive_dataframe(include_history=False)` call either returns a
dataframe or raises. -/
structure QuantileAnalyzer where
  comprehensive_data : Except String ComprehensiveData

/-- The `app_utils` collaborator surface consumed by the alert service.
Attribute-presence (`hasattr`) checks are modelled by `Option`/`Bool` fields;
`session_overall_percentiles` models the `get_session_overall_percentiles`
method, which may raise. `off_curriculum_subjects` carries the registry's
keys (the alert service only ever reads membership and the key set). -/
structure AppUtils where
  quantile_analyzer : Option QuantileAnalyzer := none
  percentile_calculator : Bool := false
  threshold_analyzer : Option (List SessionRow → List SessionRow) := none
  off_curriculum_subjects : Option (List String) := none
  has_get_session_data : Bool := true
  session_data : List SessionRow := []
  session_overall_percentiles : Option (List String) → Except String (List PercRow) :=
    fun _ => Except.ok []

/-- Source `AlertService._validate_analyzer`: requires an `app_utils` with a
non-null `quantile_analyzer` and a non-null `percentile_calculator`. -/
def validate_analyzer (au : Option AppUtils) : Bool :=
  match au with
  | none => false
  | some a => a.quantile_analyzer.isSome && a.percentile_calculator

/-- Source `AlertService._check_session_count_requirements`: compares the
subject's session count with the (dead, see `min_sessions_for_scoring`)
configured minimum. -/
def check_session_count_requirements (cfg : ServiceConfig)
    (subject_sessions : List SessionRow) : Option String :=
  let total_sessions := subject_sessions.length
  let min_sessions := min_sessions_for_scoring cfg
  if total_sessions < min_sessions then
    some s!"Insufficient sessions: {total_sessions} < {min_sessions}"
  else
    none

/-- The row selected by `sort_values("session_date", ascending=False).iloc[0]`:
the first row whose date is maximal (first occurrence wins ties). -/
def most_recent_session (rows : List SessionRow) : Option SessionRow :=
  rows.foldl
    (fun acc r =>
      match acc with
      | none => some r
      | some b => if r.session_date > b.session_date then some r else some b)
    none

/-- Source `AlertService._check_trial_requirements`: most recent session's
`finished_trials` missing or zero. -/
def check_trial_requirements (subject_sessions : List SessionRow) :
    Option String :=
  match most_recent_session subject_sessions with
  | none => none
  | some m =>
    match m.finished_trials with
    | none => some "No finished trials"
    | some v => if v = 0 then some "No finished trials" else none

/-- Source `AlertService._check_feature_availability`: required features
missing (NaN) on the most recent session. -/
def check_feature_availability (subject_sessions : List SessionRow) :
    Option String :=
  match most_recent_session subject_sessions with
  | none => none
  | some m =>
    let missing_features :=
      (if m.total_trials.isNone then ["total_trials"] else []) ++
      (if m.finished_trials.isNone then ["finished_trials"] else []) ++
      (if m.ignore_rate.isNone then ["ignore_rate"] else [])
    if missing_features.isEmpty then none
    else some ("Missing features: " ++ String.intercalate ", " missing_features)

/-- Source `AlertService.get_not_scored_reason`: first-match decision tree
wrapped in a try/except. An `app_utils` without the `get_session_data`
attribute raises an AttributeError inside the try block, which the except
clause turns into an error-embedding message. -/
def get_not_scored_reason (au : Option AppUtils) (cfg : ServiceConfig)
    (subject_id : String) : String :=
  match au with
  | none => "No app_utils available"
  | some a =>
    if !a.has_get_session_data then
      "Error determining reason: no attribute get_session_data"
    else
      let session_data := a.session_data
      if session_data.isEmpty then "No session data"
      else
        let subject_sessions :=
          session_data.filter (fun r => r.subject_id == subject_id)
        if subject_sessions.isEmpty then "Subject not found"
        else
          match check_session_count_requirements cfg subject_sessions with
          | some r => r
          | none =>
            match check_trial_requirements subject_sessions with
            | some r => r
            | none =>
              match check_feature_availability subject_sessions with
              | some r => r
              | none => "Scoring criteria not met"

/-- One named threshold rule entry (`specific_alerts` values): value,
threshold, T/N alert and a description that is empty unless the alert is T.
`stage` is only present on the `stage_sessions` entry. -/
structure SpecificAlert where
  value : ℚ
  threshold : ℚ
  alert : String
  description : String
  stage : Option String := none
deriving DecidableEq

/-- Per-subject threshold record. The off-curriculum and stub defaults only
carry `threshold_alert` and `specific_alerts`, so the remaining dict entries
are optional. -/
structure ThresholdRecord where
  threshold_alert : String
  specific_alerts : List (String × SpecificAlert)
  session_count : Option ℚ := none
  water_day_total : Option ℚ := none
  stage : Option String := none
  session_date : Option Nat := none
deriving DecidableEq

/-- The default threshold record used for off-curriculum subjects, for
quantile-only subjects and for stubbed subjects. -/
def default_threshold_record : ThresholdRecord :=
  { threshold_alert := "N", specific_alerts := [] }

/-- The per-stage session-count table of `_process_threshold_alerts`. -/
def stage_thresholds : List (String × Nat) :=
  [("STAGE_1", 5), ("STAGE_2", 5), ("STAGE_3", 6), ("STAGE_4", 10),
   ("STAGE_FINAL", 10), ("GRADUATED", 20)]

/-- Source `AlertService._create_threshold_alert_structure`: the basic record
with the `total_sessions` and `water_day_total` rules evaluated. -/
def create_threshold_alert_structure (session_count water_day_total : ℚ)
    (current_stage : String) (session_date : Option Nat) : ThresholdRecord :=
  { threshold_alert := "N"
    session_count := some session_count
    water_day_total := some water_day_total
    stage := some current_stage
    session_date := session_date
    specific_alerts :=
      [("total_sessions",
        { value := session_count
          threshold := 40
          alert := if session_count > 40 then "T" else "N"
          description :=
            if session_count > 40 then s!"Total sessions: {session_count} > 40"
            else "" }),
       ("water_day_total",
        { value := water_day_total
          threshold := 3.5
          alert := if water_day_total > 3.5 then "T" else "N"
          description :=
            if water_day_total > 3.5 then
              s!"Water day total: {water_day_total} > 3.5ml"
            else "" })] }

/-- Source `AlertService._add_stage_threshold`: counts the subject's sessions
at its current stage over the full session data and adds the `stage_sessions`
rule entry. -/
def add_stage_threshold (au : AppUtils) (rec : ThresholdRecord)
    (subject_id current_stage : String) (stage_threshold : Nat) :
    ThresholdRecord :=
  let stage_sessions_count : Nat :=
    if au.has_get_session_data then
      (au.session_data.filter
        (fun r => r.subject_id == subject_id &&
                  r.current_stage_actual == current_stage)).length
    else 0
  { rec with
    specific_alerts :=
      dict_insert rec.specific_alerts "stage_sessions"
        { value := stage_sessions_count
          threshold := stage_threshold
          alert := if stage_sessions_count > stage_threshold then "T" else "N"
          description :=
            if stage_sessions_count > stage_threshold then
              s!"{current_stage}: {stage_sessions_count} > {stage_threshold}"
            else ""
          stage := some current_stage } }

/-- The per-row body of `AlertService._process_threshold_alerts`: build the
basic structure, add the stage rule when the stage is in the table, then set
the aggregate flag to T exactly when some rule alert is T. -/
def build_subject_threshold_record (au : AppUtils) (row : SessionRow) :
    ThresholdRecord :=
  let rec0 := create_threshold_alert_structure row.session row.water_day_total
    row.current_stage_actual (some row.session_date)
  let rec1 :=
    match dict_get stage_thresholds row.current_stage_actual with
    | some t => add_stage_threshold au rec0 row.subject_id
        row.current_stage_actual t
    | none => rec0
  if rec1.specific_alerts.any (fun p => p.2.alert == "T") then
    { rec1 with threshold_alert := "T" }
  else rec1

/-- Source `AlertService._process_threshold_alerts`: one record per row of
the most-recent-session frame, keyed by subject id. -/
def process_threshold_alerts (au : AppUtils) (most_recent_rows : List SessionRow) :
    List (String × ThresholdRecord) :=
  most_recent_rows.foldl
    (fun m row => dict_insert m row.subject_id (build_subject_threshold_record au row))
    []

/-- Subject ids of a session frame in first-occurrence order
(`df["subject_id"].unique()`). -/
def unique_subject_ids (rows : List SessionRow) : List String :=
  rows.foldl
    (fun acc r => if acc.contains r.subject_id then acc else acc ++ [r.subject_id])
    []

/-- The row kept for a subject by `sort_values("session_date").groupby(
"subject_id").last()`: the one with maximal date, the latest occurrence
winning ties (stable ascending sort, then last). -/
def last_by_date_for (rows : List SessionRow) (sid : String) :
    Option SessionRow :=
  (rows.filter (fun r => r.subject_id == sid)).foldl
    (fun acc r =>
      match acc with
      | none => some r
      | some b => if b.session_date ≤ r.session_date then some r else some b)
    none

/-- Most-recent-session frame: one row per subject. The source emits groups
in sorted-key order; the claims settled here only inspect the result through
per-key lookups and key sets, for which first-occurrence order is
equivalent. -/
def group_last_by_date (rows : List SessionRow) : List SessionRow :=
  (unique_subject_ids rows).filterMap (last_by_date_for rows)

/-- Source `AlertService._get_threshold_alerts`: threshold records are
computed only when a non-null `threshold_analyzer` and a `get_session_data`
attribute are available, from the most recent analyzed session of every
subject in the session data. -/
def get_threshold_alerts (au : AppUtils) : List (String × ThresholdRecord) :=
  match au.threshold_analyzer with
  | none => []
  | some analyze =>
    if au.has_get_session_data then
      process_threshold_alerts au (group_last_by_date (analyze au.session_data))
    else []

/-- Per-feature entry of a quantile alert's `feature_percentiles` dict
(percentile plus mapped category). -/
structure QuantileFeatureEntry where
  percentile : ℚ
  category : String
deriving DecidableEq

/-- Per-subject quantile alert produced by `calculate_quantile_alerts`. -/
structure QuantileAlert where
  subject_id : String
  overall_percentile : Option ℚ
  alert_category : String
  ns_reason : Option String := none
  strata : String := "Unknown"
  feature_percentiles : Option (List (String × QuantileFeatureEntry)) := none
deriving DecidableEq

/-- The fixed feature list scanned by `calculate_quantile_alerts` for
`<feature>_session_percentile` columns. -/
def session_percentile_features : List String :=
  ["finished_trials", "ignore_rate", "total_trials", "foraging_performance",
   "abs(bias_naive)"]

/-- The per-row body of `calculate_quantile_alerts`: a not-scored alert when
the session overall percentile is missing, otherwise a scored alert with the
present per-feature session percentiles attached. -/
def quantile_alert_of_row (au : Option AppUtils) (cfg : ServiceConfig)
    (row : PercRow) : QuantileAlert :=
  match row.session_overall_percentile with
  | none =>
    { subject_id := row.subject_id
      overall_percentile := none
      alert_category := "NS"
      ns_reason := some (get_not_scored_reason au cfg row.subject_id)
      strata := row.strata.getD "Unknown" }
  | some p =>
    let feature_percentiles :=
      session_percentile_features.foldl
        (fun acc f =>
          match dict_get row.feature_session_percentiles f with
          | some (some v) =>
            acc ++ [(f, { percentile := v,
                          category := map_percentile_to_category
                            (percentile_categories_of cfg) (some v) })]
          | _ => acc)
        []
    { subject_id := row.subject_id
      overall_percentile := some p
      alert_category := map_percentile_to_category
        (percentile_categories_of cfg) (some p)
      strata := row.strata.getD "Unknown"
      feature_percentiles :=
        if feature_percentiles.isEmpty then none else some feature_percentiles }

/-- Source `AlertService.calculate_quantile_alerts`: returns the empty dict
without touching any collaborator when the analyzers are unavailable,
otherwise builds one alert per row of the session-percentile source (whose
call may raise, uncaught here). -/
def calculate_quantile_alerts (au : Option AppUtils) (cfg : ServiceConfig)
    (subject_ids : Option (List String)) :
    Except String (List (String × QuantileAlert)) :=
  if !validate_analyzer au then Except.ok []
  else
    match au with
    | none => Except.ok []
    | some a => do
      let rows ← a.session_overall_percentiles subject_ids
      Except.ok (rows.foldl
        (fun m row => dict_insert m row.subject_id (quantile_alert_of_row au cfg row))
        [])

/-- Source `AlertService.get_quantile_alerts`: empty dict when the analyzers
are unavailable; otherwise serves the stored `_quantile_alerts` (modelled by
`store`; the fresh service stores an empty dict, `none` models a store reset
to Python `None`), recomputing over the full population only when the store
is `None`; an explicit id list filters the stored dict. -/
def get_quantile_alerts (au : Option AppUtils) (cfg : ServiceConfig)
    (store : Option (List (String × QuantileAlert)))
    (subject_ids : Option (List String)) :
    Except String (List (String × QuantileAlert)) :=
  if !validate_analyzer au then Except.ok []
  else do
    let alerts ←
      match store with
      | none => calculate_quantile_alerts au cfg none
      | some s => Except.ok s
    match subject_ids with
    | none => Except.ok alerts
    | some ids =>
      Except.ok (ids.foldl
        (fun r sid =>
          match dict_get alerts sid with
          | some a => dict_insert r sid a
          | none => r)
        [])

/-- Value of the `quantile` entry of a unified alert: either a real quantile
alert or the empty placeholder dict with `current`/`historical` sub-dicts. -/
inductive QuantileField where
  | alert (a : QuantileAlert)
  | empty_stub
deriving DecidableEq

/-- Per-feature entry of a unified alert's `feature_percentiles` dict. -/
structure FeatureEntry where
  percentile : ℚ
  category : String
  description : String
  processed_value : Option ℚ := none
deriving DecidableEq

/-- Per-subject unified alert. Every field is optional because the source
builds the dict incrementally; `overall_percentile = some none` models a
present entry holding Python `None`. -/
structure UnifiedAlert where
  quantile : Option QuantileField := none
  threshold : Option ThresholdRecord := none
  alert_category : Option String := none
  overall_percentile : Option (Option ℚ) := none
  ns_reason : Option String := none
  feature_percentiles : Option (List (String × FeatureEntry)) := none
  calculated_overall_percentile : Option ℚ := none
  strata : Option String := none
deriving DecidableEq

/-- The unified-alert map returned by `get_unified_alerts`. -/
abbrev UnifiedMap : Type := List (String × UnifiedAlert)

/-- Source `AlertService._determine_all_subjects`: the requested ids when
given, otherwise the union of quantile keys, threshold keys and the session
data's subject ids (Python builds a set; the model keeps a first-occurrence
deduplicated list, which the claims only read through membership). -/
def determine_all_subjects (au : AppUtils) (subject_ids : Option (List String))
    (quantile_alerts : List (String × QuantileAlert))
    (threshold_alerts : List (String × ThresholdRecord)) : List String :=
  let dedup : List String → List String := fun l =>
    l.foldl (fun acc s => if acc.contains s then acc else acc ++ [s]) []
  match subject_ids with
  | some ids => dedup ids
  | none =>
    dedup (dict_keys quantile_alerts ++ dict_keys threshold_alerts ++
      (if au.has_get_session_data then unique_subject_ids au.session_data else []))

/-- Source `AlertService._handle_off_curriculum_subjects`: every subject of
the working set that is in the off-curriculum registry is entered as NS with
a null percentile and the default threshold record. -/
def handle_off_curriculum_subjects (au : AppUtils) (cfg : ServiceConfig)
    (all_subjects : List String) (unified : UnifiedMap) : UnifiedMap :=
  all_subjects.foldl
    (fun u sid =>
      match au.off_curriculum_subjects with
      | some off =>
        if off.contains sid then
          dict_insert u sid
            { alert_category := some "NS"
              overall_percentile := some none
              ns_reason := some (get_not_scored_reason (some au) cfg sid)
              threshold := some default_threshold_record }
        else u
      | none => u)
    unified

/-- Source `AlertService._process_quantile_and_threshold_alerts`: quantile
alerts of non-off-curriculum subjects are merged with their threshold record
(default when absent); then subjects having only a threshold record are added
with the empty quantile placeholder. -/
def process_quantile_and_threshold_alerts (au : AppUtils)
    (quantile_alerts : List (String × QuantileAlert))
    (threshold_alerts : List (String × ThresholdRecord))
    (unified : UnifiedMap) : UnifiedMap :=
  let off := (au.off_curriculum_subjects).getD []
  let u1 := quantile_alerts.foldl
    (fun u p =>
      if off.contains p.1 then u
      else
        dict_insert u p.1
          { quantile := some (QuantileField.alert p.2)
            threshold := some ((dict_get threshold_alerts p.1).getD
              default_threshold_record) })
    unified
  threshold_alerts.foldl
    (fun u p =>
      if dict_mem u p.1 then u
      else
        dict_insert u p.1
          { quantile := some QuantileField.empty_stub
            threshold := some p.2 })
    u1

/-- Source `AlertService._extract_feature_percentiles`: entries for the
features whose percentile cell is present, together with the list of those
percentile values (in column order). -/
def extract_feature_percentiles (cfg : ServiceConfig) (row : FeatureRow)
    (percentile_features : List String) :
    List (String × FeatureEntry) × List ℚ :=
  percentile_features.foldl
    (fun acc f =>
      match dict_get row.percentile_cols f with
      | some (some v) =>
        let category := map_percentile_to_category
          (percentile_categories_of cfg) (some v)
        let entry : FeatureEntry :=
          { percentile := v
            category := category
            description := get_category_description category
            processed_value :=
              match dict_get row.processed_cols f with
              | some (some w) => some w
              | _ => none }
        (acc.1 ++ [(f, entry)], acc.2 ++ [v])
      | _ => acc)
    ([], [])

/-- The per-subject body of `AlertService._process_feature_percentiles`:
attach feature percentiles from the subject's current-strata row, record the
mean of the available feature percentiles as the calculated overall
percentile, and copy the strata label. -/
def attach_feature_percentiles (cfg : ServiceConfig) (rows : List FeatureRow)
    (percentile_features : List String) (u : UnifiedMap) (sid : String) :
    UnifiedMap :=
  match dict_get u sid with
  | none => u
  | some cur =>
    match (rows.filter (fun r => r.subject_id == sid && r.is_current)).head? with
    | none => u
    | some row =>
      let fp := extract_feature_percentiles cfg row percentile_features
      let cur1 := { cur with feature_percentiles := some fp.1 }
      let cur2 :=
        if !fp.2.isEmpty then
          { cur1 with
            calculated_overall_percentile := some (fp.2.sum / (fp.2.length : ℚ)) }
        else cur1
      let cur3 :=
        match row.strata with
        | some s => { cur2 with strata := some s }
        | none => cur2
      dict_insert u sid cur3

/-- Source `AlertService._process_feature_percentiles`: restrict the
comprehensive frame to the requested subjects when given, then process each
of its subjects that already has a unified entry. -/
def process_feature_percentiles (cfg : ServiceConfig) (all_data : ComprehensiveData)
    (unified : UnifiedMap) (subject_ids : Option (List String)) : UnifiedMap :=
  let rows : List FeatureRow :=
    match subject_ids with
    | some ids => all_data.rows.filter (fun r => ids.contains r.subject_id)
    | none => all_data.rows
  let subjects : List String :=
    rows.foldl (fun acc r =>
      if acc.contains r.subject_id then acc else acc ++ [r.subject_id]) []
  subjects.foldl
    (attach_feature_percentiles cfg rows all_data.percentile_features)
    unified

/-- Source `AlertService._add_feature_percentiles`: only runs when a non-null
quantile analyzer is present; the comprehensive-dataframe call may raise, and
no handler catches it here, so the error propagates. -/
def add_feature_percentiles (au : AppUtils) (cfg : ServiceConfig)
    (unified : UnifiedMap) (subject_ids : Option (List String)) :
    Except String UnifiedMap :=
  match au.quantile_analyzer with
  | none => Except.ok unified
  | some qa => do
    let all_data ← qa.comprehensive_data
    if all_data.rows.isEmpty then Except.ok unified
    else Except.ok (process_feature_percentiles cfg all_data unified subject_ids)

/-- Source `AlertService._process_subject_overall_percentile`: the calculated
feature-average percentile, when present, is popped and used; otherwise the
session-level overall percentile supplied for the subject; the entry's
percentile and category are then overwritten accordingly, with NS and a
diagnostic reason (if none is set yet) when no percentile is available. -/
def process_subject_overall_percentile (au : AppUtils) (cfg : ServiceConfig)
    (overall_percentiles : List (String × Option ℚ)) (u : UnifiedMap)
    (sid : String) : UnifiedMap :=
  match dict_get u sid with
  | none => u
  | some rec0 =>
    let pair :=
      match rec0.calculated_overall_percentile with
      | some c => (some c, { rec0 with calculated_overall_percentile := none })
      | none =>
        ((match dict_get overall_percentiles sid with
          | some v => v
          | none => none), rec0)
    let rec1 := { pair.2 with overall_percentile := some pair.1 }
    let rec2 :=
      match pair.1 with
      | some v =>
        let category := map_overall_percentile_to_category
          (percentile_categories_of cfg) (some v)
        { rec1 with alert_category := some category }
      | none =>
        let rec1b := { rec1 with alert_category := some "NS" }
        if rec1b.ns_reason.isNone then
          { rec1b with ns_reason := some (get_not_scored_reason (some au) cfg sid) }
        else rec1b
    dict_insert u sid rec2

/-- Source `AlertService._add_overall_percentiles`: the session-level
overall-percentile call is wrapped in try/except (a failure leaves the dict
empty), then every unified entry is resolved. -/
def add_overall_percentiles (au : AppUtils) (cfg : ServiceConfig)
    (all_subjects : List String) (unified : UnifiedMap) : UnifiedMap :=
  let overall_percentiles : List (String × Option ℚ) :=
    match au.session_overall_percentiles (some all_subjects) with
    | Except.error _ => []
    | Except.ok rows =>
      if rows.isEmpty then []
      else rows.foldl
        (fun m r => dict_insert m r.subject_id r.session_overall_percentile) []
  (dict_keys unified).foldl
    (process_subject_overall_percentile au cfg overall_percentiles)
    unified

/-- Source `AlertService._handle_subjects_without_alerts`: every subject of
the working set still missing from the map receives the full NS stub. -/
def handle_subjects_without_alerts (au : AppUtils) (cfg : ServiceConfig)
    (all_subjects : List String) (unified : UnifiedMap) : UnifiedMap :=
  all_subjects.foldl
    (fun u sid =>
      if dict_mem u sid then u
      else
        dict_insert u sid
          { quantile := some QuantileField.empty_stub
            threshold := some default_threshold_record
            overall_percentile := some none
            alert_category := some "NS"
            ns_reason := some (get_not_scored_reason (some au) cfg sid) })
    unified

/-- Source `AlertService.get_unified_alerts`: raises when the analyzers are
unavailable, then runs the six-step unification pipeline. The only step that
can raise afterwards is the quantile recomputation (store `None`) and the
comprehensive feature-percentile call, neither of which is caught. -/
def get_unified_alerts (au? : Option AppUtils) (cfg : ServiceConfig)
    (store : Option (List (String × QuantileAlert)))
    (subject_ids : Option (List String)) : Except String UnifiedMap :=
  match au? with
  | none =>
    Except.error "Required analyzers not available. Initialize with AppUtils instance."
  | some au =>
    if !validate_analyzer (some au) then
      Except.error "Required analyzers not available. Initialize with AppUtils instance."
    else do
      let quantile_alerts ← get_quantile_alerts (some au) cfg store subject_ids
      let threshold_alerts := get_threshold_alerts au
      let all_subjects := determine_all_subjects au subject_ids quantile_alerts
        threshold_alerts
      let u0 : UnifiedMap := []
      let u1 := handle_off_curriculum_subjects au cfg all_subjects u0
      let u2 := process_quantile_and_threshold_alerts au quantile_alerts
        threshold_alerts u1
      let u3 ← add_feature_percentiles au cfg u2 subject_ids
      let u4 := add_overall_percentiles au cfg all_subjects u3
      let u5 := handle_subjects_without_alerts au cfg all_subjects u4
      Except.ok u5

/-- One row of the UI alert table that filtering and aggregation operate on.
Cells are optional strings (`none` models NaN). -/
structure TableRow where
  subject_id : String := ""
  overall_percentile_category : Option String := none
  percentile_category : Option String := none
  threshold_alert : Option String := none
  total_sessions_alert : Option String := none
  stage_sessions_alert : Option String := none
  water_day_total_alert : Option String := none
deriving DecidableEq

/-- The UI alert table: rows plus column-presence flags (pandas dataframes
may lack any of these columns; `df.get` and `in df.columns` react to
presence, and indexing an absent column raises a KeyError). -/
structure AlertTable where
  rows : List TableRow := []
  has_overall_percentile_category : Bool := false
  has_percentile_category : Bool := false
  has_threshold_alert : Bool := false
  has_total_sessions_alert : Bool := false
  has_stage_sessions_alert : Bool := false
  has_water_day_total_alert : Bool := false
deriving DecidableEq

/-- Cell read through `df.get(col, empty-series)` equality with "T": an
absent column contributes False everywhere. -/
def threshold_alert_is_T (df : AlertTable) (r : TableRow) : Bool :=
  df.has_threshold_alert && (r.threshold_alert == some "T")

/-- Cell read through `df.get(col, empty-series).str.contains(r"T \|",
na=False)`: an absent column or NaN cell contributes False. -/
def alert_col_contains_T (present : Bool) (cell : Option String) : Bool :=
  present &&
    (match cell with
     | some s => str_contains_sub s "T |"
     | none => false)

/-- Source `AlertService.get_alert_category_mask`: the "T" mask matches the
aggregate flag or a "T |" marker in any per-metric alert annotation; every
other category is equality against the resolved percentile-category column
(`overall_percentile_category` when that column exists, else
`percentile_category`), and indexing raises a KeyError when the chosen
column is absent. -/
def get_alert_category_mask (df : AlertTable) (alert_category : String) :
    Except String (List Bool) :=
  if df.rows.isEmpty then Except.ok []
  else if alert_category == "T" then
    Except.ok (df.rows.map (fun r =>
      threshold_alert_is_T df r ||
      alert_col_contains_T df.has_total_sessions_alert r.total_sessions_alert ||
      alert_col_contains_T df.has_stage_sessions_alert r.stage_sessions_alert ||
      alert_col_contains_T df.has_water_day_total_alert r.water_day_total_alert))
  else
    if df.has_overall_percentile_category then
      Except.ok (df.rows.map (fun r =>
        r.overall_percentile_category == some alert_category))
    else if df.has_percentile_category then
      Except.ok (df.rows.map (fun r =>
        r.percentile_category == some alert_category))
    else
      Except.error "KeyError: percentile_category"

/-- Row selection `df[mask]`. -/
def apply_mask (df : AlertTable) (mask : List Bool) : AlertTable :=
  let kept := (df.rows.zip mask).filterMap (fun p => if p.2 then some p.1 else none)
  { df with rows := kept }

/-- Source `AlertService.filter_by_threshold_alerts`: empty input returned
as is, otherwise the "T" mask (which never raises) is applied. -/
def filter_by_threshold_alerts (df : AlertTable) : AlertTable :=
  if df.rows.isEmpty then df
  else
    match get_alert_category_mask df "T" with
    | Except.ok mask => apply_mask df mask
    | Except.error _ => df

/-- Source `AlertCoordinator.filter_by_alert_category`: empty input or
category "all" short-circuits to the identity before the service is even
consulted; an uninitialized service then raises; the "T" category delegates
to the threshold filter and the rest apply the category mask, falling back
to the unfiltered input when the mask computation raises. -/
def filter_by_alert_category (has_service : Bool) (df : AlertTable)
    (alert_category : String) : Except String AlertTable :=
  if df.rows.isEmpty || alert_category == "all" then Except.ok df
  else if !has_service then
    Except.error "Alert service not initialized. Call initialize_alert_service() first."
  else if alert_category == "T" then
    Except.ok (filter_by_threshold_alerts df)
  else
    match get_alert_category_mask df alert_category with
    | Except.ok mask => Except.ok (apply_mask df mask)
    | Except.error _ => Except.ok df

/-- Count of True entries of a mask. -/
def mask_count (mask : List Bool) : Nat :=
  (mask.filter (fun b => b)).length

/-- The per-category body of `AlertCoordinator._count_standard_categories`:
positive counts are recorded, a raising mask records an explicit zero. -/
def count_category_step (df : AlertTable) (acc : List (String × Nat))
    (category : String) : List (String × Nat) :=
  match get_alert_category_mask df category with
  | Except.ok mask =>
    let count := mask_count mask
    if count > 0 then dict_insert acc category count else acc
  | Except.error _ => dict_insert acc category 0

/-- Source `AlertCoordinator._count_standard_categories` over the six
standard categories. -/
def count_standard_categories (df : AlertTable) : List (String × Nat) :=
  ["NS", "SB", "B", "N", "G", "SG"].foldl (count_category_step df) []

/-- Source `AlertCoordinator._count_threshold_alerts`: adds the "T" count
when positive (the "T" mask never raises, so the except path recording an
explicit zero is unreachable). -/
def count_threshold_alerts (df : AlertTable) (acc : List (String × Nat)) :
    List (String × Nat) :=
  match get_alert_category_mask df "T" with
  | Except.ok mask =>
    let count := mask_count mask
    if count > 0 then dict_insert acc "T" count else acc
  | Except.error _ => dict_insert acc "T" 0

/-- Source `AlertCoordinator._validate_and_adjust_counts`: when the
aggregated sum falls short of the row count, the shortfall is recorded under
"Unknown". -/
def validate_and_adjust_counts (df : AlertTable) (acc : List (String × Nat)) :
    List (String × Nat) :=
  let total_aggregated := (acc.map (fun p => p.2)).sum
  if total_aggregated < df.rows.length then
    dict_insert acc "Unknown" (df.rows.length - total_aggregated)
  else acc

/-- The mask-based counts before reconciliation (the first two steps of
`aggregate_alert_categories`). -/
def pre_adjust_counts (df : AlertTable) : List (String × Nat) :=
  count_threshold_alerts df (count_standard_categories df)

/-- Source `AlertCoordinator._fallback_aggregation`: value counts of the
resolved percentile-category column. -/
def fallback_aggregation (df : AlertTable) : List (String × Nat) :=
  if df.has_overall_percentile_category then
    df.rows.foldl
      (fun acc r =>
        match r.overall_percentile_category with
        | some c => dict_insert acc c ((dict_get acc c).getD 0 + 1)
        | none => acc)
      []
  else if df.has_percentile_category then
    df.rows.foldl
      (fun acc r =>
        match r.percentile_category with
        | some c => dict_insert acc c ((dict_get acc c).getD 0 + 1)
        | none => acc)
      []
  else []

/-- Source `AlertCoordinator.aggregate_alert_categories`: empty input gives
the empty dict; without an initialized service the fallback aggregation is
used; otherwise standard and threshold counts are taken and reconciled (no
step inside the try block can raise in this model, so the except fallback is
unreachable). -/
def aggregate_alert_categories (has_service : Bool) (df : AlertTable) :
    List (String × Nat) :=
  if df.rows.isEmpty then []
  else if !has_service then fallback_aggregation df
  else validate_and_adjust_counts df (pre_adjust_counts df)

/-- Sum of the per-category counts of an aggregation result. -/
def counts_sum (m : List (String × Nat)) : Nat :=
  (m.map (fun p => p.2)).sum

/-- The alert service's own state as held by the coordinator: the wired
`app_utils`, the built config, and the `_quantile_alerts` store (an empty
dict on a fresh service, `none` when reset to Python `None`). -/
structure AlertServiceState where
  app_utils : Option AppUtils
  config : ServiceConfig
  quantile_store : Option (List (String × QuantileAlert))

/-- The cache manager as used by the coordinator: the single
"unified_alerts" slot. -/
structure CacheManager where
  unified_slot : Option UnifiedMap

/-- Source `AlertCoordinator` state: optional cache manager and the
optional wired alert service. -/
structure AlertCoordinator where
  cache_manager : Option CacheManager
  alert_service : Option AlertServiceState

/-- The `hasattr(self.alert_service, "force_reset")` guard of
`initialize_alert_service`: the AlertService class defines no `force_reset`
attribute, so the guard is always False and the guarded reset never runs. -/
def alert_service_has_force_reset : Bool := false

/-- Source `AlertCoordinator.initialize_alert_service`: replaces the alert
service with a freshly constructed one (empty quantile store, config built
from defaults plus overrides). The force-reset branch is dead (see
`alert_service_has_force_reset`), and the cache manager is not touched. -/
def initialize_alert_service (c : AlertCoordinator) (au : Option AppUtils)
    (config : Option ExternalConfig) : AlertCoordinator :=
  let svc : AlertServiceState :=
    { app_utils := au
      config := service_config config
      quantile_store := some [] }
  { c with alert_service := some svc }

/-- Source `AlertCoordinator.get_unified_alerts`: raises without an
initialized service; a full-population request with `use_cache` is served
from the slot when filled; otherwise the service computes and a
full-population result is written back to the slot. The service's internal
quantile-store write-back during computation is not modelled (no claim reads
it). -/
def coordinator_get_unified_alerts (c : AlertCoordinator)
    (subject_ids : Option (List String)) (use_cache : Bool) :
    Except String (UnifiedMap × AlertCoordinator) :=
  match c.alert_service with
  | none =>
    Except.error "Alert service not initialized. Call initialize_alert_service() first."
  | some svc =>
    let cached : Option UnifiedMap :=
      match c.cache_manager with
      | some cm => if use_cache && subject_ids.isNone then cm.unified_slot else none
      | none => none
    match cached with
    | some m => Except.ok (m, c)
    | none => do
      let alerts ← get_unified_alerts svc.app_utils svc.config svc.quantile_store
        subject_ids
      let c1 :=
        match c.cache_manager with
        | some _ =>
          if subject_ids.isNone then
            { c with cache_manager := some { unified_slot := some alerts } }
          else c
        | none => c
      Except.ok (alerts, c1)

/-- Source `AlertCoordinator.clear_alert_cache`: the cache-manager branch
only prints (the slot is left untouched); the service's internal quantile
store is reset to an empty dict. -/
def clear_alert_cache (c : AlertCoordinator) : AlertCoordinator :=
  match c.alert_service with
  | none => c
  | some svc =>
    { c with alert_service := some { svc with quantile_store := some [] } }

/-- Key membership after an insert: the inserted key joins the key set. -/
theorem mem_keys_dict_insert {α : Type} (m : List (String × α)) (k s : String)
    (v : α) : s ∈ dict_keys (dict_insert m k v) ↔ s = k ∨ s ∈ dict_keys m := by
  induction m with
  | nil => simp [dict_insert, dict_keys]
  | cons p rest ih =>
    by_cases h : p.1 = k
    · simp [dict_insert, dict_keys, h]
    · simp only [dict_keys, List.map_cons, List.mem_cons] at ih ⊢
      simp only [dict_insert, beq_iff_eq, h, if_false, List.map_cons,
        List.mem_cons]
      rw [ih]
      tauto

/-- Inserting an already-present key leaves the key list unchanged. -/
theorem dict_keys_insert_of_mem {α : Type} (m : List (String × α)) (k : String)
    (v : α) (h : dict_mem m k = true) :
    dict_keys (dict_insert m k v) = dict_keys m := by
  induction m with
  | nil => simp [dict_mem] at h
  | cons p rest ih =>
    by_cases hp : p.1 = k
    · simp [dict_insert, dict_keys, hp]
    · have hrest : dict_mem rest k = true := by
        simp [dict_mem, hp] at h
        simpa using h
      simp [dict_insert, dict_keys, hp] at ih ⊢
      exact ih hrest

/-- Every binding of an inserted dict is the new binding or an old one. -/
theorem mem_dict_insert {α : Type} (m : List (String × α)) (k : String)
    (v : α) (p : String × α) (h : p ∈ dict_insert m k v) :
    p = (k, v) ∨ p ∈ m := by
  induction m with
  | nil => simpa [dict_insert] using h
  | cons q rest ih =>
    by_cases hq : q.1 = k
    · simp [dict_insert, hq] at h
      rcases h with h | h
      · left; simp [h]
      · right; simp [h]
    · simp [dict_insert, hq] at h
      rcases h with h | h
      · right; simp [h]
      · rcases ih h with h1 | h1
        · left; exact h1
        · right; simp [h1]

/-- Looking up the key just inserted returns the inserted value. -/
theorem dict_get_insert_self {α : Type} (m : List (String × α)) (k : String)
    (v : α) : dict_get (dict_insert m k v) k = some v := by
  induction m with
  | nil => simp [dict_insert, dict_get]
  | cons p rest ih =>
    by_cases hp : p.1 = k
    · simp [dict_insert, dict_get, hp]
    · simp [dict_insert, dict_get, hp, ih]

/-- Looking up a different key is unaffected by an insert. -/
theorem dict_get_insert_ne {α : Type} (m : List (String × α)) (k s : String)
    (v : α) (h : s ≠ k) : dict_get (dict_insert m k v) s = dict_get m s := by
  have hks : ¬ k = s := fun hh => h hh.symm
  induction m with
  | nil => simp [dict_insert, dict_get, hks]
  | cons p rest ih =>
    by_cases hp : p.1 = k
    · have hps : ¬ p.1 = s := by rw [hp]; exact hks
      simp [dict_insert, dict_get, hp, hks, hps]
    · by_cases hs : p.1 = s
      · simp [dict_insert, dict_get, hp, hs, hks, h]
      · simp [dict_insert, dict_get, hp, hs, ih]

/-- Inserting a key not yet present appends the binding. -/
theorem dict_insert_of_not_mem {α : Type} (m : List (String × α)) (k : String)
    (v : α) (h : dict_mem m k = false) : dict_insert m k v = m ++ [(k, v)] := by
  induction m with
  | nil => simp [dict_insert]
  | cons p rest ih =>
    simp [dict_mem] at h
    simp [dict_insert, h.1, ih h.2]

/-- Key membership agrees between `dict_mem` and `dict_keys`. -/
theorem dict_mem_iff_mem_keys {α : Type} (m : List (String × α)) (k : String) :
    dict_mem m k = true ↔ k ∈ dict_keys m := by
  induction m with
  | nil => simp [dict_mem, dict_keys]
  | cons p rest ih =>
    simp [dict_mem, dict_keys, ih]
    constructor
    · rintro (h | h)
      · left; exact h.symm
      · right; simpa [dict_keys] using h
    · rintro (h | h)
      · left; exact h.symm
      · right; simpa [dict_keys] using h

/-- A successful lookup exhibits a binding of the list. -/
theorem dict_get_some_mem {α : Type} (m : List (String × α)) (k : String)
    (v : α) (h : dict_get m k = some v) : (k, v) ∈ m := by
  induction m with
  | nil => simp [dict_get] at h
  | cons p rest ih =>
    obtain ⟨a, b⟩ := p
    by_cases hp : a = k
    · simp [dict_get, hp] at h
      subst hp
      subst h
      exact List.mem_cons_self _ _
    · simp [dict_get, hp] at h
      right
      exact ih h

/-- A lookup of a key outside the key set misses. -/
theorem dict_get_eq_none_of_not_mem {α : Type} (m : List (String × α))
    (k : String) (h : dict_mem m k = false) : dict_get m k = none := by
  induction m with
  | nil => simp [dict_get]
  | cons p rest ih =>
    simp [dict_mem] at h
    simp [dict_get, h.1, ih h.2]

/-- Sum of counts over an appended fresh binding. -/
theorem counts_sum_append (m : List (String × Nat)) (k : String) (v : Nat) :
    counts_sum (m ++ [(k, v)]) = counts_sum m + v := by
  simp [counts_sum]

/-- Claim C6: for strictly ascending category boundaries and finite
percentiles in [0, 100), the classifier returns exactly one of the five
scored categories via the first-match chain, its category rank is monotone
non-decreasing in the percentile, and a missing input never raises and
yields the no-value sentinel. -/
theorem C6_classifier_total_monotone (cats : PercentileCategories)
    (h1 : cats.SB < cats.B) (h2 : cats.B < cats.N) (h3 : cats.N < cats.G)
    (h4 : cats.G < cats.SG) (p q : ℚ) (hp0 : 0 ≤ p) (hp1 : p < 100)
    (hq0 : 0 ≤ q) (hq1 : q < 100) (hpq : p ≤ q) :
    map_percentile_to_category cats (some p) ∈
      (["SB", "B", "N", "G", "SG"] : List String) ∧
    category_rank (map_percentile_to_category cats (some p)) ≤
      category_rank (map_percentile_to_category cats (some q)) ∧
    map_percentile_to_category cats none = "Unknown" := by
  refine ⟨?_, ?_, rfl⟩
  · simp only [map_percentile_to_category]
    split_ifs <;> simp
  · simp only [map_percentile_to_category]
    split_ifs <;> simp [category_rank] <;> linarith

/-- Witness for C6 at the default boundaries with percentiles 3 and 7. -/
theorem C6_witness :
    (DEFAULT_PERCENTILE_CATEGORIES.SB < DEFAULT_PERCENTILE_CATEGORIES.B ∧
     DEFAULT_PERCENTILE_CATEGORIES.B < DEFAULT_PERCENTILE_CATEGORIES.N ∧
     DEFAULT_PERCENTILE_CATEGORIES.N < DEFAULT_PERCENTILE_CATEGORIES.G ∧
     DEFAULT_PERCENTILE_CATEGORIES.G < DEFAULT_PERCENTILE_CATEGORIES.SG ∧
     (0 : ℚ) ≤ 3 ∧ (3 : ℚ) < 100 ∧ (0 : ℚ) ≤ 7 ∧ (7 : ℚ) < 100 ∧
     (3 : ℚ) ≤ 7) ∧
    (map_percentile_to_category DEFAULT_PERCENTILE_CATEGORIES (some 3) ∈
      (["SB", "B", "N", "G", "SG"] : List String) ∧
     category_rank (map_percentile_to_category DEFAULT_PERCENTILE_CATEGORIES
        (some 3)) ≤
       category_rank (map_percentile_to_category DEFAULT_PERCENTILE_CATEGORIES
        (some 7)) ∧
     map_percentile_to_category DEFAULT_PERCENTILE_CATEGORIES none = "Unknown") :=
  ⟨by norm_num [DEFAULT_PERCENTILE_CATEGORIES],
   C6_classifier_total_monotone DEFAULT_PERCENTILE_CATEGORIES
     (by norm_num [DEFAULT_PERCENTILE_CATEGORIES])
     (by norm_num [DEFAULT_PERCENTILE_CATEGORIES])
     (by norm_num [DEFAULT_PERCENTILE_CATEGORIES])
     (by norm_num [DEFAULT_PERCENTILE_CATEGORIES])
     3 7 (by norm_num) (by norm_num) (by norm_num) (by norm_num) (by norm_num)⟩

/-- Claim C9: filtering any dataset (empty included) by category "all" is
the identity on the dataset. -/
theorem C9_filter_all_identity (has_service : Bool) (df : AlertTable) :
    filter_by_alert_category has_service df "all" = Except.ok df := by
  simp [filter_by_alert_category]

/-- Claim C10: with no app_utils, or one lacking a non-null quantile
analyzer or percentile calculator, both quantile-alert entry points return
the empty dict without raising, while get_unified_alerts raises. -/
theorem C10_quantile_degrades_unified_raises (au : Option AppUtils)
    (cfg : ServiceConfig) (store : Option (List (String × QuantileAlert)))
    (ids : Option (List String)) (h : validate_analyzer au = false) :
    calculate_quantile_alerts au cfg ids = Except.ok [] ∧
    get_quantile_alerts au cfg store ids = Except.ok [] ∧
    get_unified_alerts au cfg store ids =
      Except.error "Required analyzers not available. Initialize with AppUtils instance." := by
  refine ⟨?_, ?_, ?_⟩
  · simp [calculate_quantile_alerts, h]
  · simp [get_quantile_alerts, h]
  · cases au with
    | none => rfl
    | some a => simp [get_unified_alerts, h]

/-- Witness for C10: a service constructed without an app_utils instance. -/
theorem C10_witness :
    validate_analyzer none = false ∧
    (calculate_quantile_alerts none (service_config none) none =
      Except.ok [] ∧
     get_quantile_alerts none (service_config none) none none = Except.ok [] ∧
     get_unified_alerts none (service_config none) none none =
      Except.error "Required analyzers not available. Initialize with AppUtils instance.") :=
  ⟨rfl, C10_quantile_degrades_unified_raises none (service_config none) none
    none rfl⟩

/-- Session row used for the C7 failing input: subject "B" with complete
trial/feature data, so only the session-count rule could fire. -/
def c7_session (d : Nat) : SessionRow :=
  { subject_id := "B"
    session_date := d
    finished_trials := some 100
    total_trials := some 120
    ignore_rate := some (1 / 10) }

/-- App-utils for the C7 failing input: subject "B" has exactly 3 sessions. -/
def c7_app_utils : AppUtils :=
  { quantile_analyzer := some { comprehensive_data := Except.ok {} }
    percentile_calculator := true
    session_data := [c7_session 1, c7_session 2, c7_session 3] }

/-- The C7 failing configuration: the caller asks for a minimum of 5
sessions. -/
def c7_config : ServiceConfig :=
  service_config (some { min_sessions := some 5 })

/-- Claim C7: the configured minimum session count is dead code. The
constructor writes the key `min_sessions` and `_update_config` never writes
any minimum at all, while the session-count check reads the never-present key
`min_sessions_for_scoring`; hence on every buildable config the minimum is
the default 1, and a subject with 3 sessions under a requested minimum of 5
is not flagged as having insufficient sessions — its not-scored reason falls
through to "Scoring criteria not met" instead of "Insufficient sessions:
3 < 5". -/
theorem C7_min_sessions_config_dead :
    (∀ ext : ExternalConfig,
      dict_get (service_config (some ext)) "min_sessions_for_scoring" = none) ∧
    min_sessions_for_scoring c7_config = 1 ∧
    check_session_count_requirements c7_config c7_app_utils.session_data = none ∧
    get_not_scored_reason (some c7_app_utils) c7_config "B" =
      "Scoring criteria not met" ∧
    "Scoring criteria not met" ≠ "Insufficient sessions: 3 < 5" := by
  refine ⟨?_, by decide, by decide, by decide, by decide⟩
  intro ext
  obtain ⟨pc, fc, ms⟩ := ext
  cases pc <;> cases fc <;> cases ms <;>
    simp [service_config, update_config, dict_get, dict_insert]

/-- Stale cached unified map for the C8 counterexample: a map that no
recomputation over the C8 app-utils (which hold no data) could produce. -/
def c8_stale_map : UnifiedMap := [("ghost", {})]

/-- App-utils for the C8 counterexample: valid analyzers, no data at all. -/
def c8_app_utils : AppUtils :=
  { quantile_analyzer := some { comprehensive_data := Except.ok {} }
    percentile_calculator := true }

/-- Coordinator for the C8 counterexample: its cache slot already holds the
stale map before the service is ever initialized. -/
def c8_coordinator : AlertCoordinator :=
  { cache_manager := some { unified_slot := some c8_stale_map }
    alert_service := none }

/-- Counterexample to claim C8: after `initialize_alert_service`, the cached
full-population slot still holds the map cached before initialization, and
the next full-population `get_unified_alerts` with caching returns that stale
map instead of the recomputation (which here would be the empty map). -/
theorem C8_counterexample :
    (initialize_alert_service c8_coordinator (some c8_app_utils) none).cache_manager =
      some { unified_slot := some c8_stale_map } ∧
    (match coordinator_get_unified_alerts
        (initialize_alert_service c8_coordinator (some c8_app_utils) none)
        none true with
     | Except.ok (m, _) => some m
     | Except.error _ => none) = some c8_stale_map ∧
    get_unified_alerts (some c8_app_utils) (service_config none) (some []) none =
      Except.ok [] ∧
    c8_stale_map ≠ [] := by
  refine ⟨rfl, rfl, ?_, by decide⟩
  rfl

/-- Claim C8 as amended: `initialize_alert_service` is idempotent (a second
call with the same arguments changes nothing) and leaves the coordinator's
cache manager — hence the cached full-population unified-alert slot —
untouched. -/
theorem C8_initialize_idempotent_cache_untouched (c : AlertCoordinator)
    (au : Option AppUtils) (ext : Option ExternalConfig) :
    initialize_alert_service (initialize_alert_service c au ext) au ext =
      initialize_alert_service c au ext ∧
    (initialize_alert_service c au ext).cache_manager = c.cache_manager :=
  ⟨rfl, rfl⟩

/-- Bindings of a keyed fold of dict inserts come from the accumulator or
from one of the folded elements. -/
theorem mem_foldl_dict_insert {α β : Type} (key : β → String) (val : β → α)
    (l : List β) (acc : List (String × α)) (p : String × α)
    (h : p ∈ l.foldl (fun m b => dict_insert m (key b) (val b)) acc) :
    p ∈ acc ∨ ∃ b ∈ l, p = (key b, val b) := by
  induction l generalizing acc with
  | nil => exact Or.inl h
  | cons b t ih =>
    rcases ih _ h with h1 | h1
    · rcases mem_dict_insert _ _ _ _ h1 with h2 | h2
      · right; exact ⟨b, by simp, h2⟩
      · left; exact h2
    · right
      obtain ⟨x, hx, he⟩ := h1
      exact ⟨x, by simp [hx], he⟩

/-- Every record of `process_threshold_alerts` is the built record of one of
the input rows, keyed by its subject id. -/
theorem mem_process_threshold_alerts (au : AppUtils) (rows : List SessionRow)
    (p : String × ThresholdRecord) (h : p ∈ process_threshold_alerts au rows) :
    ∃ row ∈ rows, p = (row.subject_id, build_subject_threshold_record au row) := by
  have h' : p ∈ rows.foldl
      (fun m r => dict_insert m r.subject_id
        (build_subject_threshold_record au r)) [] := h
  have h1 := mem_foldl_dict_insert (fun r : SessionRow => r.subject_id)
    (fun r => build_subject_threshold_record au r) rows [] p h'
  rcases h1 with h1 | h1
  · simp at h1
  · exact h1

/-- The specific-alert list a built threshold record carries, before the
aggregate flag is decided. -/
def built_specific_alerts (au : AppUtils) (row : SessionRow) :
    List (String × SpecificAlert) :=
  let rec0 := create_threshold_alert_structure row.session row.water_day_total
    row.current_stage_actual (some row.session_date)
  match dict_get stage_thresholds row.current_stage_actual with
  | some t =>
    (add_stage_threshold au rec0 row.subject_id row.current_stage_actual t).specific_alerts
  | none => rec0.specific_alerts

/-- The built record's fields: its specific alerts are the pre-aggregate
list, and its aggregate flag is T exactly when that list holds a T alert. -/
theorem build_subject_threshold_record_eq (au : AppUtils) (row : SessionRow) :
    (build_subject_threshold_record au row).specific_alerts =
      built_specific_alerts au row ∧
    (build_subject_threshold_record au row).threshold_alert =
      (if (built_specific_alerts au row).any (fun q => q.2.alert == "T")
       then "T" else "N") := by
  unfold build_subject_threshold_record built_specific_alerts
  cases hs : dict_get stage_thresholds row.current_stage_actual <;>
    · dsimp only
      split <;>
        simp_all [create_threshold_alert_structure, add_stage_threshold]

/-- Every pre-aggregate specific alert is named by one of the three rules
and carries a T or N alert value. -/
theorem built_specific_alerts_values (au : AppUtils) (row : SessionRow) :
    ∀ q ∈ built_specific_alerts au row,
      (q.2.alert = "T" ∨ q.2.alert = "N") ∧
      (q.1 = "total_sessions" ∨ q.1 = "stage_sessions" ∨
        q.1 = "water_day_total") := by
  intro q hq
  unfold built_specific_alerts at hq
  cases hs : dict_get stage_thresholds row.current_stage_actual <;>
    simp only [hs] at hq
  · simp [create_threshold_alert_structure] at hq
    rcases hq with hq | hq <;>
      · rw [hq]
        refine ⟨?_, by simp⟩
        dsimp only
        split <;> simp
  · have hnm : dict_mem (create_threshold_alert_structure row.session
        row.water_day_total row.current_stage_actual
        (some row.session_date)).specific_alerts "stage_sessions" = false := rfl
    simp only [add_stage_threshold] at hq
    rw [dict_insert_of_not_mem _ _ _ hnm] at hq
    rw [List.mem_append] at hq
    rcases hq with hq | hq
    · simp [create_threshold_alert_structure] at hq
      rcases hq with hq | hq <;>
        · rw [hq]
          refine ⟨?_, by simp⟩
          dsimp only
          split <;> simp
    · simp at hq
      rw [hq]
      refine ⟨?_, by simp⟩
      dsimp only
      split <;> simp <;> omega

/-- Claim C4: for every subject record produced by the threshold rule
engine, the aggregate flag is T iff at least one emitted rule alert (all of
which are named total_sessions, stage_sessions or water_day_total) is T, and
equivalently N exactly when every emitted rule alert is N. -/
theorem C4_threshold_alert_iff (au : AppUtils) (rows : List SessionRow)
    (p : String × ThresholdRecord)
    (h : p ∈ process_threshold_alerts au rows) :
    (p.2.threshold_alert = "T" ↔
      ∃ q ∈ p.2.specific_alerts, q.2.alert = "T") ∧
    (p.2.threshold_alert = "N" ↔
      ∀ q ∈ p.2.specific_alerts, q.2.alert = "N") ∧
    ∀ q ∈ p.2.specific_alerts,
      q.1 = "total_sessions" ∨ q.1 = "stage_sessions" ∨
        q.1 = "water_day_total" := by
  obtain ⟨row, hrow, hpe⟩ := mem_process_threshold_alerts au rows p h
  obtain ⟨hspec, hflag⟩ := build_subject_threshold_record_eq au row
  have hvals := built_specific_alerts_values au row
  rw [hpe]
  dsimp only
  rw [hspec, hflag]
  by_cases hany :
      (built_specific_alerts au row).any (fun q => q.2.alert == "T") = true
  · rw [hany]
    simp only [if_true]
    obtain ⟨x, hx, hxT⟩ := List.any_eq_true.mp hany
    have hxT' : x.2.alert = "T" := by simpa using hxT
    refine ⟨⟨fun _ => ⟨x, hx, hxT'⟩, fun _ => by trivial⟩, ?_,
      fun q hq => (hvals q hq).2⟩
    refine iff_of_false (by decide) ?_
    intro hall
    have hN := hall x hx
    rw [hxT'] at hN
    exact absurd hN (by decide)
  · have hany' : (built_specific_alerts au row).any
        (fun q => q.2.alert == "T") = false := by
      simpa using hany
    rw [hany']
    simp only [Bool.false_eq_true, if_false]
    have hnoT : ∀ q ∈ built_specific_alerts au row, ¬ q.2.alert = "T" := by
      intro q hq hT
      have := List.any_eq_false.mp hany' q hq
      simp [hT] at this
    refine ⟨iff_of_false (by decide) ?_, ?_, fun q hq => (hvals q hq).2⟩
    · rintro ⟨x, hx, hxT⟩
      exact hnoT x hx hxT
    · refine iff_of_true (by trivial) ?_
      intro q hq
      rcases (hvals q hq).1 with hT | hN
      · exact absurd hT (hnoT q hq)
      · exact hN

/-- Session rows for the C4 witness: subject "D" has six sessions at stage
STAGE_2. -/
def c4_stage_session (d : Nat) : SessionRow :=
  { subject_id := "D", session_date := d, current_stage_actual := "STAGE_2" }

/-- App-utils for the C4 witness. -/
def c4_app_utils : AppUtils :=
  { session_data :=
      [c4_stage_session 1, c4_stage_session 2, c4_stage_session 3,
       c4_stage_session 4, c4_stage_session 5, c4_stage_session 6] }

/-- Most recent session row for the C4 witness: 45 total sessions, stage
STAGE_2 (6 stage sessions against threshold 5), water 2.0. -/
def c4_row : SessionRow :=
  { subject_id := "D", session_date := 6, session := 45, water_day_total := 2,
    current_stage_actual := "STAGE_2" }

/-- Witness for C4 at the scenario-4 record (total_sessions T,
stage_sessions T, water_day_total N, aggregate T). -/
theorem C4_witness :
    (("D", build_subject_threshold_record c4_app_utils c4_row) ∈
      process_threshold_alerts c4_app_utils [c4_row]) ∧
    (((("D", build_subject_threshold_record c4_app_utils c4_row) :
        String × ThresholdRecord).2.threshold_alert = "T" ↔
      ∃ q ∈ (("D", build_subject_threshold_record c4_app_utils c4_row) :
        String × ThresholdRecord).2.specific_alerts, q.2.alert = "T") ∧
     ((("D", build_subject_threshold_record c4_app_utils c4_row) :
        String × ThresholdRecord).2.threshold_alert = "N" ↔
      ∀ q ∈ (("D", build_subject_threshold_record c4_app_utils c4_row) :
        String × ThresholdRecord).2.specific_alerts, q.2.alert = "N") ∧
     ∀ q ∈ (("D", build_subject_threshold_record c4_app_utils c4_row) :
        String × ThresholdRecord).2.specific_alerts,
       q.1 = "total_sessions" ∨ q.1 = "stage_sessions" ∨
         q.1 = "water_day_total") :=
  ⟨by
     show ("D", build_subject_threshold_record c4_app_utils c4_row) ∈
       [("D", build_subject_threshold_record c4_app_utils c4_row)]
     exact List.mem_singleton.mpr rfl,
   C4_threshold_alert_iff c4_app_utils [c4_row]
     ("D", build_subject_threshold_record c4_app_utils c4_row)
     (by
       show ("D", build_subject_threshold_record c4_app_utils c4_row) ∈
         [("D", build_subject_threshold_record c4_app_utils c4_row)]
       exact List.mem_singleton.mpr rfl)⟩

/-- Key membership after an insert, phrased on `dict_mem`. -/
theorem dict_mem_insert_iff {α : Type} (m : List (String × α)) (k s : String)
    (v : α) :
    dict_mem (dict_insert m k v) s = true ↔ s = k ∨ dict_mem m s = true := by
  rw [dict_mem_iff_mem_keys, mem_keys_dict_insert, dict_mem_iff_mem_keys]

/-- Any key of a per-category counting step is the processed category or a
key of the accumulator. -/
theorem mem_count_category_step (df : AlertTable) (acc : List (String × Nat))
    (c s : String) (h : dict_mem (count_category_step df acc c) s = true) :
    s = c ∨ dict_mem acc s = true := by
  unfold count_category_step at h
  cases hm : get_alert_category_mask df c <;> rw [hm] at h
  · rw [dict_mem_insert_iff] at h
    exact h
  · dsimp only at h
    split at h
    · rw [dict_mem_insert_iff] at h
      exact h
    · exact Or.inr h

/-- Any key of the standard-category counting fold is one of the processed
categories or a key of the accumulator. -/
theorem mem_count_standard_fold (df : AlertTable) (cats : List String)
    (acc : List (String × Nat)) (s : String)
    (h : dict_mem (cats.foldl (count_category_step df) acc) s = true) :
    s ∈ cats ∨ dict_mem acc s = true := by
  induction cats generalizing acc with
  | nil => exact Or.inr h
  | cons c t ih =>
    rcases ih _ h with h1 | h1
    · left; exact List.mem_cons_of_mem _ h1
    · rcases mem_count_category_step df acc c s h1 with h2 | h2
      · left; exact h2 ▸ List.mem_cons_self _ _
      · right; exact h2

/-- The reconciliation bucket "Unknown" is never a key of the pre-adjust
counts. -/
theorem unknown_not_mem_pre_adjust (df : AlertTable) :
    dict_mem (pre_adjust_counts df) "Unknown" = false := by
  by_contra hmem
  have h : dict_mem (pre_adjust_counts df) "Unknown" = true := by
    revert hmem
    cases dict_mem (pre_adjust_counts df) "Unknown" <;> simp
  have h1 : "Unknown" = "T" ∨
      dict_mem (count_standard_categories df) "Unknown" = true := by
    unfold pre_adjust_counts count_threshold_alerts at h
    cases hm : get_alert_category_mask df "T" <;> rw [hm] at h
    · rw [dict_mem_insert_iff] at h
      exact h
    · dsimp only at h
      split at h
      · rw [dict_mem_insert_iff] at h
        exact h
      · exact Or.inr h
    
  rcases h1 with h1 | h1
  · exact absurd h1 (by decide)
  · rcases mem_count_standard_fold df _ _ _ h1 with h2 | h2
    · revert h2; decide
    · simp [dict_mem] at h2

/-- Claim C2 as amended: the reconciled per-category sum equals the larger
of the pre-reconciliation mask sum and the row count. In particular, when
the per-mask sum falls short of (or meets) the row total, the shortfall goes
to the "Unknown" bucket and the reconciled sum equals the total; but because
the "T" mask overlaps the percentile-category masks, the pre-mask sum — and
then the reconciled sum — can exceed the total. -/
theorem C2_aggregated_sum_reconciliation (df : AlertTable)
    (h : df.rows ≠ []) :
    counts_sum (aggregate_alert_categories true df) =
      max (counts_sum (pre_adjust_counts df)) df.rows.length ∧
    (counts_sum (pre_adjust_counts df) ≤ df.rows.length →
      counts_sum (aggregate_alert_categories true df) = df.rows.length) := by
  have hne : df.rows.isEmpty = false := by
    cases hr : df.rows with
    | nil => exact absurd hr h
    | cons a t => simp
  have hagg : aggregate_alert_categories true df =
      validate_and_adjust_counts df (pre_adjust_counts df) := by
    simp [aggregate_alert_categories, hne]
  have hmax : counts_sum (validate_and_adjust_counts df (pre_adjust_counts df)) =
      max (counts_sum (pre_adjust_counts df)) df.rows.length := by
    unfold validate_and_adjust_counts
    by_cases ht : (( pre_adjust_counts df).map (fun p => p.2)).sum < df.rows.length
    · simp only [ht, if_true]
      rw [dict_insert_of_not_mem _ _ _ (unknown_not_mem_pre_adjust df),
        counts_sum_append]
      have ht' : counts_sum (pre_adjust_counts df) < df.rows.length := ht
      unfold counts_sum
      omega
    · simp only [ht, if_false]
      have ht' : ¬ counts_sum (pre_adjust_counts df) < df.rows.length := ht
      unfold counts_sum at ht' ⊢
      omega
  rw [hagg, hmax]
  exact ⟨rfl, fun hle => by omega⟩

/-- The C2 counterexample dataset: one subject whose percentile category is
G and whose aggregate threshold flag is T, so the G mask and the T mask both
count it. -/
def c2_table : AlertTable :=
  { rows := [{ subject_id := "s1",
               overall_percentile_category := some "G",
               threshold_alert := some "T" }]
    has_overall_percentile_category := true
    has_threshold_alert := true }

/-- Counterexample to claim C2: on a one-row dataset the returned counts sum
to 2, not to the total subject count 1 — the subject is double-counted by
the G and T masks. -/
theorem C2_counterexample :
    aggregate_alert_categories true c2_table = [("G", 1), ("T", 1)] ∧
    counts_sum (aggregate_alert_categories true c2_table) = 2 ∧
    c2_table.rows.length = 1 := by
  refine ⟨?_, ?_, rfl⟩ <;> rfl

/-- Witness for the amended C2 on the counterexample dataset. -/
theorem C2_witness :
    c2_table.rows ≠ [] ∧
    counts_sum (aggregate_alert_categories true c2_table) =
      max (counts_sum (pre_adjust_counts c2_table)) c2_table.rows.length :=
  ⟨by decide, (C2_aggregated_sum_reconciliation c2_table (by decide)).1⟩

/-- A key occurs in a dict exactly when some binding carries it. -/
theorem mem_dict_keys_iff {α : Type} (m : List (String × α)) (s : String) :
    s ∈ dict_keys m ↔ ∃ p ∈ m, p.1 = s := by
  simp [dict_keys, List.mem_map]

/-- A successful lookup implies key membership. -/
theorem dict_mem_of_get_some {α : Type} (m : List (String × α)) (k : String)
    (v : α) (h : dict_get m k = some v) : dict_mem m k = true := by
  induction m with
  | nil => simp [dict_get] at h
  | cons p rest ih =>
    by_cases hp : p.1 = k
    · simp [dict_mem, hp]
    · simp [dict_get, hp] at h
      simp [dict_mem, hp, ih h]

/-- Membership in a first-occurrence deduplicating fold. -/
theorem mem_dedup_fold (l : List String) (acc : List String) (s : String) :
    s ∈ l.foldl (fun acc x => if acc.contains x then acc else acc ++ [x]) acc ↔
      s ∈ acc ∨ s ∈ l := by
  induction l generalizing acc with
  | nil => simp
  | cons a t ih =>
    rw [List.foldl_cons]
    by_cases h : acc.contains a = true
    · rw [if_pos h, ih]
      have ha : a ∈ acc := List.mem_of_elem_eq_true h
      simp only [List.mem_cons]
      constructor
      · rintro (h1 | h1)
        · exact Or.inl h1
        · exact Or.inr (Or.inr h1)
      · rintro (h1 | h1 | h1)
        · exact Or.inl h1
        · exact Or.inl (h1 ▸ ha)
        · exact Or.inr h1
    · rw [if_neg h, ih]
      simp only [List.mem_append, List.mem_singleton, List.mem_cons]
      tauto

/-- Keys of a fold that inserts keyed values unless a key-condition holds:
a key is in the result iff it was in the accumulator or some folded element
carries it and the condition rejects it. -/
theorem mem_keys_foldl_insert_filter {α β : Type} (g : β → α)
    (key : β → String) (cond : String → Bool) (l : List β)
    (u : List (String × α)) (s : String) :
    s ∈ dict_keys (l.foldl
      (fun u b => if cond (key b) then u else dict_insert u (key b) (g b)) u) ↔
    s ∈ dict_keys u ∨ ∃ b ∈ l, key b = s ∧ cond s = false := by
  induction l generalizing u with
  | nil => simp
  | cons b t ih =>
    rw [List.foldl_cons]
    by_cases h : cond (key b) = true
    · rw [if_pos h, ih]
      constructor
      · rintro (h1 | ⟨x, hx, he, hc⟩)
        · exact Or.inl h1
        · exact Or.inr ⟨x, List.mem_cons_of_mem _ hx, he, hc⟩
      · rintro (h1 | ⟨x, hx, he, hc⟩)
        · exact Or.inl h1
        · rcases List.mem_cons.mp hx with h2 | h2
          · rw [← h2, he] at h
            simp [h] at hc
          · exact Or.inr ⟨x, h2, he, hc⟩
    · rw [if_neg h, ih]
      have hc0 : cond (key b) = false := by
        revert h
        cases cond (key b) <;> simp
      constructor
      · rintro (h1 | ⟨x, hx, he, hc⟩)
        · rcases (mem_keys_dict_insert u (key b) s (g b)).mp h1 with h2 | h2
          · exact Or.inr ⟨b, List.mem_cons_self _ _, h2.symm, h2 ▸ hc0⟩
          · exact Or.inl h2
        · exact Or.inr ⟨x, List.mem_cons_of_mem _ hx, he, hc⟩
      · rintro (h1 | ⟨x, hx, he, hc⟩)
        · exact Or.inl ((mem_keys_dict_insert u (key b) s (g b)).mpr (Or.inr h1))
        · rcases List.mem_cons.mp hx with h2 | h2
          · exact Or.inl ((mem_keys_dict_insert u (key b) s (g b)).mpr
              (Or.inl (h2 ▸ he).symm))
          · exact Or.inr ⟨x, h2, he, hc⟩

/-- Keys of a fold that inserts keyed values for keys not yet present: the
result's key set is the union of the accumulator's keys and the folded
keys. -/
theorem mem_keys_foldl_insert_if_absent {α β : Type} (g : β → α)
    (key : β → String) (l : List β) (u : List (String × α)) (s : String) :
    s ∈ dict_keys (l.foldl
      (fun u b => if dict_mem u (key b) then u
        else dict_insert u (key b) (g b)) u) ↔
    s ∈ dict_keys u ∨ ∃ b ∈ l, key b = s := by
  induction l generalizing u with
  | nil => simp
  | cons b t ih =>
    rw [List.foldl_cons]
    by_cases h : dict_mem u (key b) = true
    · rw [if_pos h, ih]
      constructor
      · rintro (h1 | ⟨x, hx, he⟩)
        · exact Or.inl h1
        · exact Or.inr ⟨x, List.mem_cons_of_mem _ hx, he⟩
      · rintro (h1 | ⟨x, hx, he⟩)
        · exact Or.inl h1
        · rcases List.mem_cons.mp hx with h2 | h2
          · refine Or.inl ?_
            rw [← he, h2]
            exact (dict_mem_iff_mem_keys u (key b)).mp h
          · exact Or.inr ⟨x, h2, he⟩
    · rw [if_neg h, ih]
      constructor
      · rintro (h1 | ⟨x, hx, he⟩)
        · rcases (mem_keys_dict_insert u (key b) s (g b)).mp h1 with h2 | h2
          · exact Or.inr ⟨b, List.mem_cons_self _ _, h2.symm⟩
          · exact Or.inl h2
        · exact Or.inr ⟨x, List.mem_cons_of_mem _ hx, he⟩
      · rintro (h1 | ⟨x, hx, he⟩)
        · exact Or.inl ((mem_keys_dict_insert u (key b) s (g b)).mpr (Or.inr h1))
        · rcases List.mem_cons.mp hx with h2 | h2
          · exact Or.inl ((mem_keys_dict_insert u (key b) s (g b)).mpr
              (Or.inl (h2 ▸ he).symm))
          · exact Or.inr ⟨x, h2, he⟩

/-- Folding with a constant step function changes nothing. -/
theorem foldl_const_id {α β : Type} (l : List β) (u : α) :
    l.foldl (fun (u : α) (_ : β) => u) u = u := by
  induction l with
  | nil => rfl
  | cons a t ih => exact ih

/-- Key set after the off-curriculum step: the previous keys plus the
off-curriculum members of the working set. -/
theorem mem_keys_handle_off (au : AppUtils) (cfg : ServiceConfig)
    (subs : List String) (u : UnifiedMap) (s : String) :
    s ∈ dict_keys (handle_off_curriculum_subjects au cfg subs u) ↔
      s ∈ dict_keys u ∨
        (s ∈ subs ∧ ((au.off_curriculum_subjects).getD []).contains s = true) := by
  unfold handle_off_curriculum_subjects
  cases hoff : au.off_curriculum_subjects with
  | none =>
    dsimp only
    rw [foldl_const_id]
    simp
  | some off =>
    dsimp only [Option.getD_some]
    induction subs generalizing u with
    | nil => simp
    | cons a t ih =>
      rw [List.foldl_cons]
      by_cases h : off.contains a = true
      · rw [if_pos h, ih]
        rw [mem_keys_dict_insert]
        simp only [List.mem_cons]
        constructor
        · rintro ((h1 | h1) | h1)
          · by_cases hs : s ∈ dict_keys u
            · exact Or.inl hs
            · exact Or.inr ⟨Or.inl h1, h1 ▸ h⟩
          · exact Or.inl h1
          · exact Or.inr ⟨Or.inr h1.1, h1.2⟩
        · rintro (h1 | ⟨h1 | h1, h2⟩)
          · exact Or.inl (Or.inr h1)
          · exact Or.inl (Or.inl h1)
          · exact Or.inr ⟨h1, h2⟩
      · rw [if_neg h, ih]
        have hc0 : off.contains a = false := by
          revert h
          cases off.contains a <;> simp
        simp only [List.mem_cons]
        constructor
        · rintro (h1 | h1)
          · exact Or.inl h1
          · exact Or.inr ⟨Or.inr h1.1, h1.2⟩
        · rintro (h1 | ⟨h1 | h1, h2⟩)
          · exact Or.inl h1
          · rw [h1] at h2
            rw [h2] at hc0
            cases hc0
          · exact Or.inr ⟨h1, h2⟩

/-- Key set after the quantile/threshold merge step: the previous keys, the
non-off-curriculum quantile keys, and the threshold keys. -/
theorem mem_keys_process_qt (au : AppUtils)
    (qa : List (String × QuantileAlert))
    (ta : List (String × ThresholdRecord)) (u : UnifiedMap) (s : String) :
    s ∈ dict_keys (process_quantile_and_threshold_alerts au qa ta u) ↔
      s ∈ dict_keys u ∨
        (s ∈ dict_keys qa ∧
          ((au.off_curriculum_subjects).getD []).contains s = false) ∨
        s ∈ dict_keys ta := by
  unfold process_quantile_and_threshold_alerts
  dsimp only
  rw [mem_keys_foldl_insert_if_absent
    (fun p : String × ThresholdRecord =>
      ({ quantile := some QuantileField.empty_stub,
         threshold := some p.2 } : UnifiedAlert))
    (fun p => p.1) ta _ s]
  rw [mem_keys_foldl_insert_filter
    (fun p : String × QuantileAlert =>
      ({ quantile := some (QuantileField.alert p.2),
         threshold := some ((dict_get ta p.1).getD default_threshold_record) } :
        UnifiedAlert))
    (fun p => p.1) (fun k => ((au.off_curriculum_subjects).getD []).contains k)
    qa u s]
  rw [mem_dict_keys_iff qa, mem_dict_keys_iff ta]
  constructor
  · rintro ((h1 | ⟨x, hx, he, hc⟩) | ⟨x, hx, he⟩)
    · exact Or.inl h1
    · exact Or.inr (Or.inl ⟨⟨x, hx, he⟩, hc⟩)
    · exact Or.inr (Or.inr ⟨x, hx, he⟩)
  · rintro (h1 | ⟨⟨x, hx, he⟩, hc⟩ | ⟨x, hx, he⟩)
    · exact Or.inl (Or.inl h1)
    · exact Or.inl (Or.inr ⟨x, hx, he, hc⟩)
    · exact Or.inr ⟨x, hx, he⟩

/-- The feature-attachment step never adds or removes a key. -/
theorem dict_keys_attach_feature (cfg : ServiceConfig) (rows : List FeatureRow)
    (feats : List String) (u : UnifiedMap) (sid : String) :
    dict_keys (attach_feature_percentiles cfg rows feats u sid) = dict_keys u := by
  unfold attach_feature_percentiles
  cases hg : dict_get u sid with
  | none => rfl
  | some cur =>
    cases hh : (rows.filter (fun r => r.subject_id == sid && r.is_current)).head? with
    | none => rfl
    | some row =>
      dsimp only
      exact dict_keys_insert_of_mem u sid _ (dict_mem_of_get_some u sid cur hg)

/-- Folding the feature-attachment step over any subject list preserves the
key set. -/
theorem dict_keys_foldl_attach (cfg : ServiceConfig) (rows : List FeatureRow)
    (feats : List String) (l : List String) (u : UnifiedMap) :
    dict_keys (l.foldl (attach_feature_percentiles cfg rows feats) u) =
      dict_keys u := by
  induction l generalizing u with
  | nil => rfl
  | cons a t ih =>
    rw [List.foldl_cons, ih, dict_keys_attach_feature]

/-- The feature-percentile pass preserves the key set exactly. -/
theorem dict_keys_process_feature (cfg : ServiceConfig)
    (all_data : ComprehensiveData) (u : UnifiedMap)
    (ids : Option (List String)) :
    dict_keys (process_feature_percentiles cfg all_data u ids) = dict_keys u := by
  unfold process_feature_percentiles
  exact dict_keys_foldl_attach _ _ _ _ _

/-- The overall-percentile resolution of one subject never adds or removes a
key. -/
theorem dict_keys_process_overall (au : AppUtils) (cfg : ServiceConfig)
    (ops : List (String × Option ℚ)) (u : UnifiedMap) (sid : String) :
    dict_keys (process_subject_overall_percentile au cfg ops u sid) =
      dict_keys u := by
  unfold process_subject_overall_percentile
  cases hg : dict_get u sid with
  | none => rfl
  | some rec0 =>
    dsimp only
    exact dict_keys_insert_of_mem u sid _ (dict_mem_of_get_some u sid rec0 hg)

/-- The overall-percentile pass preserves the key set exactly. -/
theorem dict_keys_foldl_process_overall (au : AppUtils) (cfg : ServiceConfig)
    (ops : List (String × Option ℚ)) (l : List String) (u : UnifiedMap) :
    dict_keys (l.foldl (process_subject_overall_percentile au cfg ops) u) =
      dict_keys u := by
  induction l generalizing u with
  | nil => rfl
  | cons a t ih =>
    rw [List.foldl_cons, ih, dict_keys_process_overall]

/-- The overall-percentile pass preserves the key set exactly. -/
theorem dict_keys_add_overall (au : AppUtils) (cfg : ServiceConfig)
    (subs : List String) (u : UnifiedMap) :
    dict_keys (add_overall_percentiles au cfg subs u) = dict_keys u := by
  unfold add_overall_percentiles
  exact dict_keys_foldl_process_overall _ _ _ _ _

/-- Key set after the stub step: the previous keys plus the whole working
set. -/
theorem mem_keys_handle_without (au : AppUtils) (cfg : ServiceConfig)
    (subs : List String) (u : UnifiedMap) (s : String) :
    s ∈ dict_keys (handle_subjects_without_alerts au cfg subs u) ↔
      s ∈ dict_keys u ∨ s ∈ subs := by
  unfold handle_subjects_without_alerts
  rw [mem_keys_foldl_insert_if_absent
    (fun sid : String =>
      ({ quantile := some QuantileField.empty_stub
         threshold := some default_threshold_record
         overall_percentile := some none
         alert_category := some "NS"
         ns_reason := some (get_not_scored_reason (some au) cfg sid) } :
        UnifiedAlert))
    (fun sid => sid) subs u s]
  simp

/-- A successful feature-enrichment step preserves the key set exactly. -/
theorem dict_keys_add_feature_ok (au : AppUtils) (cfg : ServiceConfig)
    (u u' : UnifiedMap) (ids : Option (List String))
    (h : add_feature_percentiles au cfg u ids = Except.ok u') :
    dict_keys u' = dict_keys u := by
  unfold add_feature_percentiles at h
  cases hqa : au.quantile_analyzer with
  | none =>
    rw [hqa] at h
    cases h
    rfl
  | some qa =>
    rw [hqa] at h
    dsimp only at h
    cases hc : qa.comprehensive_data with
    | error e =>
      rw [hc] at h
      simp only [Bind.bind, Except.bind] at h
      cases h
    | ok data =>
      rw [hc] at h
      simp only [Bind.bind, Except.bind] at h
      by_cases he : data.rows.isEmpty = true
      · rw [if_pos he] at h
        cases h
        rfl
      · rw [if_neg he] at h
        cases h
        exact dict_keys_process_feature cfg data u ids

/-- Membership in the working subject set for an explicit request: exactly
the requested ids. -/
theorem mem_determine_some (au : AppUtils) (ids : List String)
    (qa : List (String × QuantileAlert))
    (ta : List (String × ThresholdRecord)) (s : String) :
    s ∈ determine_all_subjects au (some ids) qa ta ↔ s ∈ ids := by
  unfold determine_all_subjects
  dsimp only
  rw [mem_dedup_fold]
  simp

/-- Membership in the working subject set for an unrestricted request: every
id observed across quantile keys, threshold keys and (when available) the
session data. -/
theorem mem_determine_none (au : AppUtils)
    (qa : List (String × QuantileAlert))
    (ta : List (String × ThresholdRecord)) (s : String) :
    s ∈ determine_all_subjects au none qa ta ↔
      s ∈ dict_keys qa ∨ s ∈ dict_keys ta ∨
        s ∈ (if au.has_get_session_data then unique_subject_ids au.session_data
             else []) := by
  unfold determine_all_subjects
  dsimp only
  rw [mem_dedup_fold]
  simp [or_assoc]

/-- Keys of the id-filtered quantile dict are requested ids. -/
theorem keys_quantile_filter_subset (alerts : List (String × QuantileAlert))
    (ids : List String) (acc : List (String × QuantileAlert)) (s : String)
    (h : s ∈ dict_keys (ids.foldl
      (fun r sid =>
        match dict_get alerts sid with
        | some a => dict_insert r sid a
        | none => r) acc)) :
    s ∈ dict_keys acc ∨ s ∈ ids := by
  induction ids generalizing acc with
  | nil => exact Or.inl h
  | cons a t ih =>
    rw [List.foldl_cons] at h
    rcases ih _ h with h1 | h1
    · cases hg : dict_get alerts a with
      | none =>
        rw [hg] at h1
        exact Or.inl h1
      | some v =>
        rw [hg] at h1
        rcases (mem_keys_dict_insert acc a s v).mp h1 with h2 | h2
        · exact Or.inr (h2 ▸ List.mem_cons_self _ _)
        · exact Or.inl h2
    · exact Or.inr (List.mem_cons_of_mem _ h1)

/-- Key-set characterization of a successful unification: the returned map's
keys are exactly the working subject set together with the
non-off-curriculum quantile keys and the threshold keys. -/
theorem unified_ok_keys (au : AppUtils) (cfg : ServiceConfig)
    (store : Option (List (String × QuantileAlert)))
    (ids? : Option (List String)) (qa : List (String × QuantileAlert))
    (m : UnifiedMap)
    (hq : get_quantile_alerts (some au) cfg store ids? = Except.ok qa)
    (h : get_unified_alerts (some au) cfg store ids? = Except.ok m) :
    ∀ s, s ∈ dict_keys m ↔
      s ∈ determine_all_subjects au ids? qa (get_threshold_alerts au) ∨
      (s ∈ dict_keys qa ∧
        ((au.off_curriculum_subjects).getD []).contains s = false) ∨
      s ∈ dict_keys (get_threshold_alerts au) := by
  intro s
  unfold get_unified_alerts at h
  dsimp only at h
  cases hv : validate_analyzer (some au) with
  | false =>
    rw [hv] at h
    rw [if_pos (show ((!false) = true) by decide)] at h
    cases h
  | true =>
    rw [hv] at h
    rw [if_neg (show ¬ ((!true) = true) by decide)] at h
    rw [hq] at h
    simp only [Bind.bind, Except.bind] at h
    cases hf : add_feature_percentiles au cfg
      (process_quantile_and_threshold_alerts au qa (get_threshold_alerts au)
        (handle_off_curriculum_subjects au cfg
          (determine_all_subjects au ids? qa (get_threshold_alerts au)) []))
      ids? with
    | error e =>
      rw [hf] at h
      cases h
    | ok u3 =>
      rw [hf] at h
      simp only [Except.ok.injEq] at h
      rw [← h]
      rw [mem_keys_handle_without, dict_keys_add_overall,
        dict_keys_add_feature_ok au cfg _ u3 ids? hf,
        mem_keys_process_qt, mem_keys_handle_off]
      simp only [dict_keys, List.map_nil, List.not_mem_nil, false_or]
      constructor
      · rintro ((⟨h1, h2⟩ | h1 | h1) | h1)
        · exact Or.inl h1
        · exact Or.inr (Or.inl h1)
        · exact Or.inr (Or.inr h1)
        · exact Or.inl h1
      · rintro (h1 | h1 | h1)
        · exact Or.inr h1
        · exact Or.inl (Or.inr (Or.inl h1))
        · exact Or.inl (Or.inr (Or.inr h1))

/-- Keys of an id-scoped quantile request are requested ids. -/
theorem keys_get_quantile_some_subset (au : AppUtils) (cfg : ServiceConfig)
    (store : Option (List (String × QuantileAlert))) (ids : List String)
    (qa : List (String × QuantileAlert))
    (hq : get_quantile_alerts (some au) cfg store (some ids) = Except.ok qa) :
    ∀ t, t ∈ dict_keys qa → t ∈ ids := by
  intro t ht
  unfold get_quantile_alerts at hq
  cases hv : validate_analyzer (some au) with
  | false =>
    rw [hv, if_pos (show ((!false) = true) by decide)] at hq
    cases hq
    simp [dict_keys] at ht
  | true =>
    rw [hv, if_neg (show ¬ ((!true) = true) by decide)] at hq
    cases store with
    | some s0 =>
      dsimp only at hq
      simp only [Bind.bind, Except.bind, Except.ok.injEq] at hq
      rw [← hq] at ht
      rcases keys_quantile_filter_subset s0 ids [] t ht with h1 | h1
      · simp [dict_keys] at h1
      · exact h1
    | none =>
      dsimp only at hq
      cases hc : calculate_quantile_alerts (some au) cfg none with
      | error e =>
        rw [hc] at hq
        simp only [Bind.bind, Except.bind] at hq
        cases hq
      | ok alerts =>
        rw [hc] at hq
        simp only [Bind.bind, Except.bind, Except.ok.injEq] at hq
        rw [← hq] at ht
        rcases keys_quantile_filter_subset alerts ids [] t ht with h1 | h1
        · simp [dict_keys] at h1
        · exact h1

/-- Claim C3 as amended: with an explicit requested id list, the key set of
the returned map is the requested set TOGETHER WITH every subject of the
threshold-alert source (which is computed population-wide, so threshold-only
subjects outside the requested list also appear); with no list, the key set
is every id observed across the quantile, threshold, and session-data
sources. -/
theorem C3_unified_keyset_amended (au : AppUtils) (cfg : ServiceConfig)
    (store : Option (List (String × QuantileAlert))) :
    (∀ (ids : List String) (qa : List (String × QuantileAlert)) (m : UnifiedMap),
      get_quantile_alerts (some au) cfg store (some ids) = Except.ok qa →
      get_unified_alerts (some au) cfg store (some ids) = Except.ok m →
      ∀ s, s ∈ dict_keys m ↔
        s ∈ ids ∨ s ∈ dict_keys (get_threshold_alerts au)) ∧
    (∀ (qa : List (String × QuantileAlert)) (m : UnifiedMap),
      au.has_get_session_data = true →
      get_quantile_alerts (some au) cfg store none = Except.ok qa →
      get_unified_alerts (some au) cfg store none = Except.ok m →
      ∀ s, s ∈ dict_keys m ↔
        s ∈ dict_keys qa ∨ s ∈ dict_keys (get_threshold_alerts au) ∨
          s ∈ unique_subject_ids au.session_data) := by
  constructor
  · intro ids qa m hq h s
    have hmain := unified_ok_keys au cfg store (some ids) qa m hq h s
    rw [mem_determine_some] at hmain
    have hsub := keys_get_quantile_some_subset au cfg store ids qa hq s
    rw [hmain]
    constructor
    · rintro (h1 | ⟨h1, _⟩ | h1)
      · exact Or.inl h1
      · exact Or.inl (hsub h1)
      · exact Or.inr h1
    · rintro (h1 | h1)
      · exact Or.inl h1
      · exact Or.inr (Or.inr h1)
  · intro qa m hsess hq h s
    have hmain := unified_ok_keys au cfg store none qa m hq h s
    rw [mem_determine_none, if_pos hsess] at hmain
    rw [hmain]
    constructor
    · rintro ((h1 | h1 | h1) | ⟨h1, _⟩ | h1)
      · exact Or.inl h1
      · exact Or.inr (Or.inl h1)
      · exact Or.inr (Or.inr h1)
      · exact Or.inl h1
      · exact Or.inr (Or.inl h1)
    · rintro (h1 | h1 | h1)
      · exact Or.inl (Or.inl h1)
      · exact Or.inl (Or.inr (Or.inl h1))
      · exact Or.inl (Or.inr (Or.inr h1))

/-- Session row for the C3 counterexample: subject "B" exists only in the
session data feeding the threshold engine. -/
def c3_session_row : SessionRow :=
  { subject_id := "B"
    session_date := 1
    finished_trials := some 5
    total_trials := some 6
    ignore_rate := some 0 }

/-- App-utils for the C3 counterexample: a threshold analyzer over session
data containing only subject "B", while "A" is the only requested subject. -/
def c3_app_utils : AppUtils :=
  { quantile_analyzer := some { comprehensive_data := Except.ok {} }
    percentile_calculator := true
    threshold_analyzer := some id
    has_get_session_data := true
    session_data := [c3_session_row]
    session_overall_percentiles := fun _ => Except.ok [] }

/-- The unified map computed for the C3 counterexample request. -/
def c3_map : UnifiedMap :=
  match get_unified_alerts (some c3_app_utils) (service_config none) (some [])
      (some ["A"]) with
  | Except.ok m => m
  | Except.error _ => []

/-- Counterexample to claim C3: requesting exactly ["A"] returns a map that
also contains the unrequested threshold-only subject "B". -/
theorem C3_counterexample :
    get_unified_alerts (some c3_app_utils) (service_config none) (some [])
      (some ["A"]) = Except.ok c3_map ∧
    "B" ∈ dict_keys c3_map ∧ "B" ∉ (["A"] : List String) := by
  refine ⟨rfl, by decide, by decide⟩

/-- Witness for the amended C3 on the counterexample request. -/
theorem C3_witness :
    get_quantile_alerts (some c3_app_utils) (service_config none) (some [])
      (some ["A"]) = Except.ok [] ∧
    get_unified_alerts (some c3_app_utils) (service_config none) (some [])
      (some ["A"]) = Except.ok c3_map ∧
    ("B" ∈ dict_keys c3_map ↔
      "B" ∈ (["A"] : List String) ∨
        "B" ∈ dict_keys (get_threshold_alerts c3_app_utils)) :=
  ⟨rfl, rfl,
   (C3_unified_keyset_amended c3_app_utils (service_config none) (some [])).1
     ["A"] [] c3_map rfl rfl "B"⟩

/-- An id-scoped quantile request with a populated store always succeeds. -/
theorem get_quantile_some_store_ok (au : AppUtils) (cfg : ServiceConfig)
    (qs : List (String × QuantileAlert)) (ids? : Option (List String)) :
    ∃ r, get_quantile_alerts (some au) cfg (some qs) ids? = Except.ok r := by
  unfold get_quantile_alerts
  cases hv : validate_analyzer (some au) with
  | false =>
    rw [if_pos (show ((!false) = true) by decide)]
    exact ⟨[], rfl⟩
  | true =>
    rw [if_neg (show ¬ ((!true) = true) by decide)]
    dsimp only
    cases ids? with
    | none => exact ⟨_, rfl⟩
    | some ids => exact ⟨_, rfl⟩

/-- A raising comprehensive-dataframe call makes the feature-enrichment step
propagate the error, whatever map it was given. -/
theorem add_feature_percentiles_error (au : AppUtils) (cfg : ServiceConfig)
    (u : UnifiedMap) (ids? : Option (List String)) (qan : QuantileAnalyzer)
    (e : String) (hqa : au.quantile_analyzer = some qan)
    (hc : qan.comprehensive_data = Except.error e) :
    add_feature_percentiles au cfg u ids? = Except.error e := by
  unfold add_feature_percentiles
  rw [hqa]
  dsimp only
  rw [hc]
  rfl

/-- A succeeding comprehensive-dataframe call makes the feature-enrichment
step succeed, whatever map it was given. -/
theorem add_feature_percentiles_ok (au : AppUtils) (cfg : ServiceConfig)
    (u : UnifiedMap) (ids? : Option (List String)) (qan : QuantileAnalyzer)
    (data : ComprehensiveData) (hqa : au.quantile_analyzer = some qan)
    (hc : qan.comprehensive_data = Except.ok data) :
    ∃ u', add_feature_percentiles au cfg u ids? = Except.ok u' := by
  unfold add_feature_percentiles
  rw [hqa]
  dsimp only
  rw [hc]
  simp only [Bind.bind, Except.bind]
  by_cases he : data.rows.isEmpty = true
  · rw [if_pos he]
    exact ⟨u, rfl⟩
  · rw [if_neg he]
    exact ⟨_, rfl⟩

/-- Structure of a successful unification with a populated quantile store:
the result is the stub step applied after the pure pipeline. -/
theorem get_unified_ok_struct (au : AppUtils) (cfg : ServiceConfig)
    (qs : List (String × QuantileAlert)) (ids? : Option (List String))
    (qa0 : List (String × QuantileAlert)) (u3 : UnifiedMap)
    (hv : validate_analyzer (some au) = true)
    (hqg : get_quantile_alerts (some au) cfg (some qs) ids? = Except.ok qa0)
    (hfo : add_feature_percentiles au cfg
      (process_quantile_and_threshold_alerts au qa0 (get_threshold_alerts au)
        (handle_off_curriculum_subjects au cfg
          (determine_all_subjects au ids? qa0 (get_threshold_alerts au)) []))
      ids? = Except.ok u3) :
    get_unified_alerts (some au) cfg (some qs) ids? =
      Except.ok (handle_subjects_without_alerts au cfg
        (determine_all_subjects au ids? qa0 (get_threshold_alerts au))
        (add_overall_percentiles au cfg
          (determine_all_subjects au ids? qa0 (get_threshold_alerts au)) u3)) := by
  unfold get_unified_alerts
  dsimp only
  rw [hv]
  rw [if_neg (show ¬ ((!true) = true) by decide)]
  rw [hqg]
  simp only [Bind.bind, Except.bind]
  rw [hfo]

/-- Claim C5 as amended: a failure of the comprehensive feature-percentile
source is NOT caught — it propagates out of get_unified_alerts, aborting
unification; when that source succeeds, unification succeeds and the
returned map covers every requested subject (only the session-level
overall-percentile source is guarded by a try/except). -/
theorem C5_feature_failure_aborts (au : AppUtils) (cfg : ServiceConfig)
    (qs : List (String × QuantileAlert)) (ids : List String) :
    (∀ (qan : QuantileAnalyzer) (e : String),
      au.quantile_analyzer = some qan →
      qan.comprehensive_data = Except.error e →
      au.percentile_calculator = true →
      get_unified_alerts (some au) cfg (some qs) (some ids) =
        Except.error e) ∧
    (∀ (qan : QuantileAnalyzer) (data : ComprehensiveData),
      au.quantile_analyzer = some qan →
      qan.comprehensive_data = Except.ok data →
      au.percentile_calculator = true →
      ∃ m, get_unified_alerts (some au) cfg (some qs) (some ids) =
        Except.ok m ∧ ∀ s ∈ ids, s ∈ dict_keys m) := by
  constructor
  · intro qan e hqa hc hpc
    have hv : validate_analyzer (some au) = true := by
      simp [validate_analyzer, hqa, hpc]
    obtain ⟨qa0, hqg⟩ := get_quantile_some_store_ok au cfg qs (some ids)
    unfold get_unified_alerts
    dsimp only
    rw [hv]
    rw [if_neg (show ¬ ((!true) = true) by decide)]
    rw [hqg]
    simp only [Bind.bind, Except.bind]
    rw [add_feature_percentiles_error au cfg _ _ qan e hqa hc]
  · intro qan data hqa hc hpc
    have hv : validate_analyzer (some au) = true := by
      simp [validate_analyzer, hqa, hpc]
    obtain ⟨qa0, hqg⟩ := get_quantile_some_store_ok au cfg qs (some ids)
    obtain ⟨u3, hfo⟩ := add_feature_percentiles_ok au cfg
      (process_quantile_and_threshold_alerts au qa0 (get_threshold_alerts au)
        (handle_off_curriculum_subjects au cfg
          (determine_all_subjects au (some ids) qa0 (get_threshold_alerts au)) []))
      (some ids) qan data hqa hc
    refine ⟨_, get_unified_ok_struct au cfg qs (some ids) qa0 u3 hv hqg hfo, ?_⟩
    intro s hs
    rw [mem_keys_handle_without]
    exact Or.inr ((mem_determine_some au ids qa0 (get_threshold_alerts au) s).mpr hs)

/-- App-utils for the C5 counterexample: a comprehensive feature-percentile
source that raises. -/
def c5_err_app_utils : AppUtils :=
  { quantile_analyzer := some { comprehensive_data := Except.error "boom" }
    percentile_calculator := true
    session_overall_percentiles := fun _ => Except.ok [] }

/-- App-utils for the C5 witness: the same shape with a succeeding source. -/
def c5_ok_app_utils : AppUtils :=
  { quantile_analyzer := some { comprehensive_data := Except.ok {} }
    percentile_calculator := true
    session_overall_percentiles := fun _ => Except.ok [] }

/-- Counterexample to claim C5: when the feature-enrichment collaborator
raises, get_unified_alerts aborts with that error and returns no map at
all. -/
theorem C5_counterexample :
    get_unified_alerts (some c5_err_app_utils) (service_config none) (some [])
      (some ["A"]) = Except.error "boom" ∧
    (match get_unified_alerts (some c5_err_app_utils) (service_config none)
        (some []) (some ["A"]) with
     | Except.ok _ => true
     | Except.error _ => false) = false :=
  ⟨rfl, rfl⟩

/-- Witness for the amended C5: the error propagates on the raising source,
and with a succeeding source the map covers the requested subject. -/
theorem C5_witness :
    get_unified_alerts (some c5_err_app_utils) (service_config none) (some [])
      (some ["A"]) = Except.error "boom" ∧
    (∃ m, get_unified_alerts (some c5_ok_app_utils) (service_config none)
        (some []) (some ["A"]) = Except.ok m ∧
      ∀ s ∈ (["A"] : List String), s ∈ dict_keys m) :=
  ⟨(C5_feature_failure_aborts c5_err_app_utils (service_config none) []
      ["A"]).1 { comprehensive_data := Except.error "boom" } "boom" rfl rfl rfl,
   (C5_feature_failure_aborts c5_ok_app_utils (service_config none) []
      ["A"]).2 { comprehensive_data := Except.ok {} } {} rfl rfl rfl⟩

/-- Session row backing the C1 subject: present, scorable session data for
off-curriculum subject "s1". -/
def c1_session : SessionRow :=
  { subject_id := "s1"
    session_date := 1
    finished_trials := some 10
    total_trials := some 20
    ignore_rate := some 0 }

/-- App-utils family for C1: subject "s1" is in the off-curriculum registry
and the session-level source supplies it the overall percentile `p` (or none
when `p` is `none`). -/
def c1_app_utils (p : Option ℚ) : AppUtils :=
  { quantile_analyzer := some { comprehensive_data := Except.ok {} }
    percentile_calculator := true
    off_curriculum_subjects := some ["s1"]
    has_get_session_data := true
    session_data := [c1_session]
    session_overall_percentiles := fun _ =>
      Except.ok [{ subject_id := "s1", session_overall_percentile := p }] }

/-- The unified record C1's off-curriculum subject actually ends up with:
the threshold stays defaulted and the diagnostic reason is kept, but the
category and percentile track the supplied percentile through the
overall-percentile resolution step. -/
def c1_expected (p : Option ℚ) : UnifiedAlert :=
  { threshold := some default_threshold_record
    alert_category := some (map_overall_percentile_to_category
      DEFAULT_PERCENTILE_CATEGORIES p)
    overall_percentile := some p
    ns_reason := some "Scoring criteria not met" }

/-- Claim C1 as amended: an off-curriculum subject is first forced to NS
with a null percentile and the default threshold record, and its threshold
stays defaulted; but the overall-percentile resolution step later overwrites
its percentile and category with the resolved percentile when one is
available (here the supplied session-level percentile `p`), mapped through
the percentile classifier — NS with a null percentile persists only when no
percentile is available. -/
theorem C1_off_curriculum_override (p : Option ℚ) :
    get_unified_alerts (some (c1_app_utils p)) (service_config none) (some [])
      (some ["s1"]) = Except.ok [("s1", c1_expected p)] := by
  cases p with
  | none => rfl
  | some v => rfl

/-- Counterexample to claim C1: the off-curriculum subject "s1", supplied a
high overall percentile of 95, resolves to category SG with percentile 95 —
not to NS with a null percentile. -/
theorem C1_counterexample :
    get_unified_alerts (some (c1_app_utils (some 95))) (service_config none)
      (some []) (some ["s1"]) = Except.ok [("s1", c1_expected (some 95))] ∧
    (c1_expected (some 95)).alert_category = some "SG" ∧
    (c1_expected (some 95)).alert_category ≠ some "NS" ∧
    (c1_expected (some 95)).overall_percentile = some (some 95) ∧
    (c1_expected (some 95)).overall_percentile ≠ some none := by
  have hcat : (c1_expected (some 95)).alert_category = some "SG" := by
    show some (map_overall_percentile_to_category DEFAULT_PERCENTILE_CATEGORIES
      (some 95)) = some "SG"
    norm_num [map_overall_percentile_to_category, DEFAULT_PERCENTILE_CATEGORIES]
  refine ⟨rfl, hcat, ?_, rfl, by decide⟩
  rw [hcat]
  decide
